import Mathlib

/-
  Verification of the Flowplane control-plane API layer.

  The definitions below are a shallow embedding of the Rust source under
  src/api (route_handlers.rs, platform_api_definitions.rs,
  platform_openapi_handlers.rs, platform_service_handlers.rs,
  platform_transformers.rs).  Types and functions keep the source names
  where Lean allows it.  Types that the handlers consume from modules
  outside the verified files (storage, xds, error) are reconstructed from
  their uses and from the specification; each such definition carries a
  doc comment saying so.
-/

/-- Modelled from the spec: a scoped per-filter configuration entry (the
glossary's "scoped filter config", defined in the xds/filters module outside
the verified files).  The handlers under verification copy these maps
verbatim without inspecting them, so the payload is kept opaque. -/
structure HttpScopedConfig where
  config : String
deriving DecidableEq, Repr

/-- Modelled from the spec: API error kinds (src/api/error.rs is not among the
verified files); the constructors follow section 7 of the specification and
the variants the verified handlers construct. -/
inductive ApiError where
  | validationError (msg : String)
  | badRequest (msg : String)
  | notFound (msg : String)
  | conflict (msg : String)
  | serviceUnavailable (msg : String)
  | internal (msg : String)
deriving DecidableEq, Repr

/-- Char-list prefix test: the executable form of Rust str::starts_with used
throughout the embedding (the core String functions do not reduce in the
kernel). -/
def charsStartWith : List Char → List Char → Bool
  | [], _ => true
  | _ :: _, [] => false
  | p :: ps, c :: cs => p == c && charsStartWith ps cs

/-- Rust str::starts_with. -/
def strStartsWith (s pat : String) : Bool := charsStartWith pat.data s.data

/-- Rust s.trim().is_empty(): every character is whitespace. -/
def isBlank (s : String) : Bool := s.data.all Char.isWhitespace

/-- Rust str::to_uppercase, as the importer applies it to ASCII method
names. -/
def strToUpper (s : String) : String := String.mk (s.data.map Char.toUpper)

/-- Rust numeric str::parse: non-empty all-digit strings. -/
def strToNatOpt (s : String) : Option Nat :=
  if s.data.isEmpty then none
  else if s.data.all Char.isDigit then
    some (s.data.foldl (fun acc c => acc * 10 + (c.toNat - 48)) 0)
  else none

/-- Split a character list at the first occurrence of a separator sequence:
the parts strictly before and strictly after it. -/
def breakOnSep (sep : List Char) : List Char → Option (List Char × List Char)
  | [] => none
  | c :: cs =>
    if charsStartWith sep (c :: cs) then some ([], (c :: cs).drop sep.length)
    else
      match breakOnSep sep cs with
      | some (a, b) => some (c :: a, b)
      | none => none

/-- Split a character list at every occurrence of a separator character. -/
def splitAll (sep : Char) : List Char → List (List Char)
  | [] => [[]]
  | c :: cs =>
    if c == sep then [] :: splitAll sep cs
    else
      match splitAll sep cs with
      | [] => [[c]]
      | h :: t => (c :: h) :: t

/-- Split a character list at its last separator occurrence (Rust
str::rfind): the parts strictly before and strictly after it. -/
def breakAtLast (sep : Char) : List Char → Option (List Char × List Char)
  | [] => none
  | c :: cs =>
    match breakAtLast sep cs with
    | some (a, b) => some (c :: a, b)
    | none => if c == sep then some ([], cs) else none

/-- PathMatchDefinition from route_handlers.rs (tagged union over exact,
prefix, regex and template path matches). -/
inductive PathMatchDefinition where
  | Exact (value : String)
  | Prefix (value : String)
  | Regex (value : String)
  | Template (template : String)
deriving DecidableEq, Repr

/-- HeaderMatchDefinition from route_handlers.rs. -/
structure HeaderMatchDefinition where
  name : String
  value : Option String
  regex : Option String
  present : Option Bool
deriving DecidableEq, Repr

/-- QueryParameterMatchDefinition from route_handlers.rs. -/
structure QueryParameterMatchDefinition where
  name : String
  value : Option String
  regex : Option String
  present : Option Bool
deriving DecidableEq, Repr

/-- RouteMatchDefinition from route_handlers.rs. -/
structure RouteMatchDefinition where
  path : PathMatchDefinition
  headers : List HeaderMatchDefinition
  queryParameters : List QueryParameterMatchDefinition
deriving DecidableEq, Repr

/-- WeightedClusterDefinition from route_handlers.rs. -/
structure WeightedClusterDefinition where
  name : String
  weight : Nat
  typedPerFilterConfig : List (String × HttpScopedConfig)
deriving DecidableEq, Repr

/-- RouteActionDefinition from route_handlers.rs (tagged union over forward,
weighted and redirect actions). -/
inductive RouteActionDefinition where
  | Forward (cluster : String) (timeoutSeconds : Option Nat)
      (prefixRewrite : Option String) (templateRewrite : Option String)
  | Weighted (clusters : List WeightedClusterDefinition) (totalWeight : Option Nat)
  | Redirect (hostRedirect : Option String) (pathRedirect : Option String)
      (responseCode : Option Nat)
deriving DecidableEq, Repr

/-- RouteRuleDefinition from route_handlers.rs; the Rust field r#match is
rendered rMatch. -/
structure RouteRuleDefinition where
  name : Option String
  rMatch : RouteMatchDefinition
  action : RouteActionDefinition
  typedPerFilterConfig : List (String × HttpScopedConfig)
deriving DecidableEq, Repr

/-- VirtualHostDefinition from route_handlers.rs. -/
structure VirtualHostDefinition where
  name : String
  domains : List String
  routes : List RouteRuleDefinition
  typedPerFilterConfig : List (String × HttpScopedConfig)
deriving DecidableEq, Repr

/-- RouteDefinition from route_handlers.rs: the canonical route configuration
payload. -/
structure RouteDefinition where
  name : String
  virtualHosts : List VirtualHostDefinition
deriving DecidableEq, Repr

/-- Modelled from the spec: the wire-side PathMatch of the xds::route module
(outside the verified files); its shape is fixed by the conversions in
route_handlers.rs and section 6's wire-format description. -/
inductive XdsPathMatch where
  | Exact (value : String)
  | Prefix (value : String)
  | Regex (value : String)
  | Template (value : String)
deriving DecidableEq, Repr

/-- Modelled from the spec: the wire-side HeaderMatchConfig, shape fixed by
the conversions in route_handlers.rs. -/
structure XdsHeaderMatchConfig where
  name : String
  value : Option String
  regex : Option String
  present : Option Bool
deriving DecidableEq, Repr

/-- Modelled from the spec: the wire-side QueryParameterMatchConfig, shape
fixed by the conversions in route_handlers.rs. -/
structure XdsQueryParameterMatchConfig where
  name : String
  value : Option String
  regex : Option String
  present : Option Bool
deriving DecidableEq, Repr

/-- Modelled from the spec: the wire-side RouteMatchConfig, shape fixed by
the conversions in route_handlers.rs (header and query lists become
options that are None when the source lists are empty). -/
structure XdsRouteMatchConfig where
  path : XdsPathMatch
  headers : Option (List XdsHeaderMatchConfig)
  queryParameters : Option (List XdsQueryParameterMatchConfig)
deriving DecidableEq, Repr

/-- Modelled from the spec: the wire-side WeightedClusterConfig, shape fixed
by the conversions in route_handlers.rs. -/
structure XdsWeightedClusterConfig where
  name : String
  weight : Nat
  typedPerFilterConfig : List (String × HttpScopedConfig)
deriving DecidableEq, Repr

/-- Modelled from the spec: the wire-side RouteActionConfig, shape fixed by
the conversions in route_handlers.rs. -/
inductive XdsRouteActionConfig where
  | Cluster (name : String) (timeout : Option Nat)
      (prefixRewrite : Option String) (pathTemplateRewrite : Option String)
  | WeightedClusters (clusters : List XdsWeightedClusterConfig) (totalWeight : Option Nat)
  | Redirect (hostRedirect : Option String) (pathRedirect : Option String)
      (responseCode : Option Nat)
deriving DecidableEq, Repr

/-- Modelled from the spec: the wire-side RouteRule, shape fixed by the
conversions in route_handlers.rs. -/
structure XdsRouteRule where
  name : Option String
  rMatch : XdsRouteMatchConfig
  action : XdsRouteActionConfig
  typedPerFilterConfig : List (String × HttpScopedConfig)
deriving DecidableEq, Repr

/-- Modelled from the spec: the wire-side VirtualHostConfig, shape fixed by
the conversions in route_handlers.rs. -/
structure XdsVirtualHostConfig where
  name : String
  domains : List String
  routes : List XdsRouteRule
  typedPerFilterConfig : List (String × HttpScopedConfig)
deriving DecidableEq, Repr

/-- Modelled from the spec: the wire-side RouteConfig, shape fixed by the
conversions in route_handlers.rs. -/
structure XdsRouteConfig where
  name : String
  virtualHosts : List XdsVirtualHostConfig
deriving DecidableEq, Repr

/-- Rust's collect over an iterator of Results into Result of Vec: map a
fallible function over a list, stopping at the first error. -/
def mapME {α β : Type} (f : α → Except ApiError β) : List α → Except ApiError (List β)
  | [] => .ok []
  | x :: xs =>
    match f x with
    | .error e => .error e
    | .ok y =>
      match mapME f xs with
      | .error e => .error e
      | .ok ys => .ok (y :: ys)

/-- HeaderMatchDefinition::to_xds_config from route_handlers.rs. -/
def HeaderMatchDefinition.to_xds_config (h : HeaderMatchDefinition) : XdsHeaderMatchConfig :=
  { name := h.name, value := h.value, regex := h.regex, present := h.present }

/-- HeaderMatchDefinition::from_xds_config from route_handlers.rs. -/
def HeaderMatchDefinition.from_xds_config (c : XdsHeaderMatchConfig) : HeaderMatchDefinition :=
  { name := c.name, value := c.value, regex := c.regex, present := c.present }

/-- QueryParameterMatchDefinition::to_xds_config from route_handlers.rs. -/
def QueryParameterMatchDefinition.to_xds_config (q : QueryParameterMatchDefinition) :
    XdsQueryParameterMatchConfig :=
  { name := q.name, value := q.value, regex := q.regex, present := q.present }

/-- QueryParameterMatchDefinition::from_xds_config from route_handlers.rs. -/
def QueryParameterMatchDefinition.from_xds_config (c : XdsQueryParameterMatchConfig) :
    QueryParameterMatchDefinition :=
  { name := c.name, value := c.value, regex := c.regex, present := c.present }

/-- PathMatchDefinition::to_xds_config from route_handlers.rs. -/
def PathMatchDefinition.to_xds_config : PathMatchDefinition → XdsPathMatch
  | .Exact value => .Exact value
  | .Prefix value => .Prefix value
  | .Regex value => .Regex value
  | .Template template => .Template template

/-- PathMatchDefinition::from_xds_config from route_handlers.rs. -/
def PathMatchDefinition.from_xds_config : XdsPathMatch → PathMatchDefinition
  | .Exact value => .Exact value
  | .Prefix value => .Prefix value
  | .Regex value => .Regex value
  | .Template value => .Template value

/-- RouteMatchDefinition::to_xds_config from route_handlers.rs: empty header
and query-parameter lists become None on the wire. -/
def RouteMatchDefinition.to_xds_config (m : RouteMatchDefinition) :
    Except ApiError XdsRouteMatchConfig :=
  let headers :=
    if m.headers.isEmpty then none
    else some (m.headers.map HeaderMatchDefinition.to_xds_config)
  let queryParameters :=
    if m.queryParameters.isEmpty then none
    else some (m.queryParameters.map QueryParameterMatchDefinition.to_xds_config)
  .ok { path := m.path.to_xds_config, headers := headers, queryParameters := queryParameters }

/-- RouteMatchDefinition::from_xds_config from route_handlers.rs: a missing
wire list becomes the empty list. -/
def RouteMatchDefinition.from_xds_config (c : XdsRouteMatchConfig) : RouteMatchDefinition :=
  { path := PathMatchDefinition.from_xds_config c.path
    headers := (c.headers.getD []).map HeaderMatchDefinition.from_xds_config
    queryParameters :=
      (c.queryParameters.getD []).map QueryParameterMatchDefinition.from_xds_config }

/-- RouteActionDefinition::to_xds_config from route_handlers.rs: a weighted
action with no clusters is rejected. -/
def RouteActionDefinition.to_xds_config : RouteActionDefinition →
    Except ApiError XdsRouteActionConfig
  | .Forward cluster timeoutSeconds prefixRewrite templateRewrite =>
    .ok (.Cluster cluster timeoutSeconds prefixRewrite templateRewrite)
  | .Weighted clusters totalWeight =>
    if clusters.isEmpty then
      .error (.validationError "Weighted route must include at least one cluster")
    else
      .ok (.WeightedClusters
        (clusters.map fun c =>
          { name := c.name, weight := c.weight, typedPerFilterConfig := c.typedPerFilterConfig })
        totalWeight)
  | .Redirect hostRedirect pathRedirect responseCode =>
    .ok (.Redirect hostRedirect pathRedirect responseCode)

/-- RouteActionDefinition::from_xds_config from route_handlers.rs. -/
def RouteActionDefinition.from_xds_config : XdsRouteActionConfig → RouteActionDefinition
  | .Cluster name timeout prefixRewrite pathTemplateRewrite =>
    .Forward name timeout prefixRewrite pathTemplateRewrite
  | .WeightedClusters clusters totalWeight =>
    .Weighted
      (clusters.map fun c =>
        { name := c.name, weight := c.weight, typedPerFilterConfig := c.typedPerFilterConfig })
      totalWeight
  | .Redirect hostRedirect pathRedirect responseCode =>
    .Redirect hostRedirect pathRedirect responseCode

/-- RouteRuleDefinition::to_xds_config from route_handlers.rs. -/
def RouteRuleDefinition.to_xds_config (r : RouteRuleDefinition) : Except ApiError XdsRouteRule :=
  match r.rMatch.to_xds_config with
  | .error e => .error e
  | .ok xm =>
    match r.action.to_xds_config with
    | .error e => .error e
    | .ok xa =>
      .ok { name := r.name, rMatch := xm, action := xa,
            typedPerFilterConfig := r.typedPerFilterConfig }

/-- RouteRuleDefinition::from_xds_config from route_handlers.rs. -/
def RouteRuleDefinition.from_xds_config (c : XdsRouteRule) : RouteRuleDefinition :=
  { name := c.name
    rMatch := RouteMatchDefinition.from_xds_config c.rMatch
    action := RouteActionDefinition.from_xds_config c.action
    typedPerFilterConfig := c.typedPerFilterConfig }

/-- VirtualHostDefinition::to_xds_config from route_handlers.rs. -/
def VirtualHostDefinition.to_xds_config (vh : VirtualHostDefinition) :
    Except ApiError XdsVirtualHostConfig :=
  match mapME RouteRuleDefinition.to_xds_config vh.routes with
  | .error e => .error e
  | .ok routes =>
    .ok { name := vh.name, domains := vh.domains, routes := routes,
          typedPerFilterConfig := vh.typedPerFilterConfig }

/-- VirtualHostDefinition::from_xds_config from route_handlers.rs. -/
def VirtualHostDefinition.from_xds_config (c : XdsVirtualHostConfig) : VirtualHostDefinition :=
  { name := c.name, domains := c.domains
    routes := c.routes.map RouteRuleDefinition.from_xds_config
    typedPerFilterConfig := c.typedPerFilterConfig }

/-- RouteDefinition::to_xds_config from route_handlers.rs. -/
def RouteDefinition.to_xds_config (d : RouteDefinition) : Except ApiError XdsRouteConfig :=
  match mapME VirtualHostDefinition.to_xds_config d.virtualHosts with
  | .error e => .error e
  | .ok virtualHosts => .ok { name := d.name, virtualHosts := virtualHosts }

/-- RouteDefinition::from_xds_config from route_handlers.rs. -/
def RouteDefinition.from_xds_config (c : XdsRouteConfig) : RouteDefinition :=
  { name := c.name
    virtualHosts := c.virtualHosts.map VirtualHostDefinition.from_xds_config }

/-- The flat_map over virtual hosts' routes that summarize_route
(route_handlers.rs) iterates: all route rules in order. -/
def flatRoutes (definition : RouteDefinition) : List RouteRuleDefinition :=
  definition.virtualHosts.flatMap fun vh => vh.routes

/-- summarize_route from route_handlers.rs: the derived summary columns
(path summary, cluster summary) for a route configuration payload. -/
def summarize_route (definition : RouteDefinition) : String × String :=
  let rs := flatRoutes definition
  let pathSummary :=
    ((rs.map fun route =>
        match route.rMatch.path with
        | .Exact value => value
        | .Prefix value => value
        | .Regex value => "regex:" ++ value
        | .Template template => "template:" ++ template).head?).getD "*"
  let clusterSummary :=
    ((rs.map fun route =>
        match route.action with
        | .Forward cluster _ _ _ => cluster
        | .Weighted clusters _ => ((clusters.head?.map fun c => c.name)).getD ""
        | .Redirect _ _ _ => "__redirect__").head?).getD "unknown"
  (pathSummary, clusterSummary)

/-- The validator crate's length check: the number of characters lies in the
inclusive range. -/
def lengthBetween (s : String) (lo hi : Nat) : Bool :=
  Nat.ble lo s.length && Nat.ble s.length hi

/-- The derived validator of RouteDefinition (route_handlers.rs): name length
1..=100 and a non-empty virtual-host list. -/
def routeDefinitionValidate (d : RouteDefinition) : Except ApiError Unit :=
  if lengthBetween d.name 1 100 = false then
    .error (.validationError "name: length out of range")
  else if d.virtualHosts.isEmpty then
    .error (.validationError "virtualHosts: length out of range")
  else .ok ()

/-- The derived validator of VirtualHostDefinition (route_handlers.rs): name
length 1..=100, non-empty domains, non-empty routes. -/
def virtualHostValidate (vh : VirtualHostDefinition) : Except ApiError Unit :=
  if lengthBetween vh.name 1 100 = false then
    .error (.validationError "name: length out of range")
  else if vh.domains.isEmpty then
    .error (.validationError "domains: length out of range")
  else if vh.routes.isEmpty then
    .error (.validationError "routes: length out of range")
  else .ok ()

/-- The derived validator of RouteRuleDefinition (route_handlers.rs): the
optional name, when present, has length 1..=100 (the nested match carries no
field validators of its own). -/
def routeRuleValidate (r : RouteRuleDefinition) : Except ApiError Unit :=
  match r.name with
  | none => .ok ()
  | some s =>
    if lengthBetween s 1 100 = false then
      .error (.validationError "name: length out of range")
    else .ok ()

/-- ensure_valid_uri_template from route_handlers.rs.  The source encodes a
UriTemplateMatchConfig with prost and rejects an empty encoding; a proto3
message with a single string field encodes to the empty buffer exactly when
the string is empty, so the check rejects exactly the empty template. -/
def ensure_valid_uri_template (template : String) : Except ApiError Unit :=
  if template = "" then .error (.validationError "Invalid URI template")
  else .ok ()

/-- validate_route_match from route_handlers.rs. -/
def validate_route_match (m : RouteMatchDefinition) : Except ApiError Unit :=
  match
    (match m.path with
     | .Exact value =>
       if isBlank value then
         .error (.validationError "Route match path value must not be empty")
       else .ok ()
     | .Prefix value =>
       if isBlank value then
         .error (.validationError "Route match path value must not be empty")
       else .ok ()
     | .Regex value =>
       if isBlank value then
         .error (.validationError "Route match path value must not be empty")
       else .ok ()
     | .Template template =>
       if isBlank template then
         .error (.validationError "Route match template must not be empty")
       else ensure_valid_uri_template template : Except ApiError Unit)
  with
  | .error e => .error e
  | .ok _ =>
    if m.headers.any fun header => isBlank header.name then
      .error (.validationError "Header match name must not be empty")
    else if m.queryParameters.any fun param => isBlank param.name then
      .error (.validationError "Query parameter match name must not be empty")
    else .ok ()

/-- validate_route_action from route_handlers.rs. -/
def validate_route_action : RouteActionDefinition → Except ApiError Unit
  | .Forward cluster _ prefixRewrite templateRewrite =>
    if isBlank cluster then
      .error (.validationError "Forward action requires a cluster name")
    else
      match
        (match prefixRewrite with
         | none => .ok ()
         | some p =>
           if isBlank p then
             .error (.validationError "prefixRewrite must not be an empty string")
           else if (strStartsWith p "/") = false then
             .error (.validationError "prefixRewrite must start with a slash")
           else .ok () : Except ApiError Unit)
      with
      | .error e => .error e
      | .ok _ =>
        match templateRewrite with
        | none => .ok ()
        | some t =>
          if isBlank t then
            .error (.validationError "templateRewrite must not be an empty string")
          else ensure_valid_uri_template t
  | .Weighted clusters _ =>
    if clusters.isEmpty then
      .error (.validationError "Weighted action must include at least one cluster")
    else if clusters.any fun cluster => isBlank cluster.name then
      .error (.validationError "Weighted action cluster names must not be empty")
    else if clusters.any fun cluster => cluster.weight = 0 then
      .error (.validationError "Weighted action cluster weights must be greater than zero")
    else .ok ()
  | .Redirect hostRedirect pathRedirect _ =>
    if ((hostRedirect.map fun s => isBlank s).getD false)
        || ((pathRedirect.map fun s => isBlank s).getD false) then
      .error (.validationError "Redirect action values must not be empty strings")
    else .ok ()

/-- The cross-field match over (path, action) inside validate_route_payload
(route_handlers.rs), with the source's arm order. -/
def crossFieldCheck (r : RouteRuleDefinition) : Except ApiError Unit :=
  match r.rMatch.path, r.action with
  | .Template _, .Forward _ _ (some _) _ =>
    .error (.validationError "Template path matches do not support prefixRewrite")
  | .Template _, .Forward _ _ _ _ => .ok ()
  | .Template _, _ =>
    .error (.validationError "Template path matches require a forward action")
  | _, .Forward _ _ _ (some _) =>
    .error (.validationError "templateRewrite requires a template path match")
  | _, _ => .ok ()

/-- The per-rule body of the loop in validate_route_payload
(route_handlers.rs): derived validator, match validation, action validation,
then the cross-field check. -/
def validateRouteRuleFull (r : RouteRuleDefinition) : Except ApiError Unit :=
  match routeRuleValidate r with
  | .error e => .error e
  | .ok _ =>
    match validate_route_match r.rMatch with
    | .error e => .error e
    | .ok _ =>
      match validate_route_action r.action with
      | .error e => .error e
      | .ok _ => crossFieldCheck r

/-- The rule loop of validate_route_payload. -/
def validateRules : List RouteRuleDefinition → Except ApiError Unit
  | [] => .ok ()
  | r :: rs =>
    match validateRouteRuleFull r with
    | .error e => .error e
    | .ok _ => validateRules rs

/-- The per-virtual-host body of validate_route_payload: derived validator,
the empty-domain check, then the rule loop. -/
def validateVirtualHostFull (vh : VirtualHostDefinition) : Except ApiError Unit :=
  match virtualHostValidate vh with
  | .error e => .error e
  | .ok _ =>
    if vh.domains.any fun domain => isBlank domain then
      .error (.validationError "Virtual host domains must not be empty")
    else validateRules vh.routes

/-- The virtual-host loop of validate_route_payload. -/
def validateVirtualHosts : List VirtualHostDefinition → Except ApiError Unit
  | [] => .ok ()
  | vh :: vhs =>
    match validateVirtualHostFull vh with
    | .error e => .error e
    | .ok _ => validateVirtualHosts vhs

/-- validate_route_payload from route_handlers.rs. -/
def validate_route_payload (d : RouteDefinition) : Except ApiError Unit :=
  match routeDefinitionValidate d with
  | .error e => .error e
  | .ok _ => validateVirtualHosts d.virtualHosts

/-- The path rendering stated by the specification (section 4.C): the raw
value for Exact and Prefix, a "regex:" form for Regex and a "template:" form
for Template. -/
def claimPathRender : PathMatchDefinition → String
  | .Exact value => value
  | .Prefix value => value
  | .Regex value => "regex:" ++ value
  | .Template template => "template:" ++ template

/-- RouteResponse from route_handlers.rs (path_prefix and cluster_name render
as pathPrefix and clusterTargets). -/
structure RouteResponse where
  name : String
  pathPrefix : String
  clusterTargets : String
  config : RouteDefinition
deriving DecidableEq, Repr

/-- Modelled from the spec: the repository record for a stored route
configuration (the storage layer is outside the verified files); the fields
follow section 4.B and the handlers' uses. -/
structure RouteData where
  id : String
  name : String
  pathPrefix : String
  clusterName : String
deriving DecidableEq, Repr

/-- Modelled from the spec: CreateRouteRepositoryRequest of the storage layer,
as built by create_route_handler (the serialized canonical configuration is
carried as the wire value). -/
structure CreateRouteRepositoryRequest where
  name : String
  pathPrefix : String
  clusterName : String
  configuration : XdsRouteConfig
deriving DecidableEq, Repr

/-- Modelled from the spec: UpdateRouteRepositoryRequest of the storage layer,
as built by update_route_handler. -/
structure UpdateRouteRepositoryRequest where
  pathPrefix : Option String
  clusterName : Option String
  configuration : Option XdsRouteConfig
deriving DecidableEq, Repr

/-- The observable repository and xDS side effects a route handler performs,
in order.  A 2xx write response must show a successful refresh at the end of
its trace. -/
inductive Effect where
  | repoCreate (request : CreateRouteRepositoryRequest)
  | repoUpdate (id : String) (request : UpdateRouteRepositoryRequest)
  | repoDelete (id : String)
  | refreshSucceeded
  | refreshFailed
deriving DecidableEq, Repr

/-- The environment a route handler runs in: outcomes of the repository and
xDS calls it makes (those live outside the verified files).  Each handler is
embedded as a pure function of its payload and this environment, returning
its result together with the ordered trace of effects. -/
structure HandlerEnv where
  repoAvailable : Bool
  envoyEncodeOk : XdsRouteConfig → Bool
  createResult : Except ApiError RouteData
  getByName : String → Except ApiError RouteData
  updateResult : Except ApiError RouteData
  deleteResult : Except ApiError Unit
  refreshResult : Except ApiError Unit

/-- Modelled from the spec: the designated name of the system-owned default
gateway route configuration (openapi/defaults.rs is outside the verified
files; section 3 designates one such configuration). -/
def defaultGatewayRouteName : String := "default-gateway-routes"

/-- Modelled from the spec: is_default_gateway_route from openapi/defaults.rs,
true exactly on the designated default gateway route configuration name. -/
def is_default_gateway_route (name : String) : Bool :=
  name = defaultGatewayRouteName

/-- create_route_handler from route_handlers.rs: validate, require the
repository, convert to the wire form and smoke-test it, summarize, create,
refresh, then answer 201. -/
def create_route_handler (env : HandlerEnv) (payload : RouteDefinition) :
    Except ApiError (Nat × RouteResponse) × List Effect :=
  match validate_route_payload payload with
  | .error e => (.error e, [])
  | .ok _ =>
    if env.repoAvailable = false then
      (.error (.serviceUnavailable "Route repository not configured"), [])
    else
      match RouteDefinition.to_xds_config payload with
      | .error e => (.error e, [])
      | .ok xdsConfig =>
        if env.envoyEncodeOk xdsConfig = false then
          (.error (.validationError "Invalid route configuration"), [])
        else
          let s := summarize_route payload
          let request : CreateRouteRepositoryRequest :=
            { name := payload.name, pathPrefix := s.1, clusterName := s.2,
              configuration := xdsConfig }
          match env.createResult with
          | .error e => (.error e, [Effect.repoCreate request])
          | .ok created =>
            match env.refreshResult with
            | .error e => (.error e, [Effect.repoCreate request, Effect.refreshFailed])
            | .ok _ =>
              (.ok (201,
                 { name := created.name, pathPrefix := created.pathPrefix,
                   clusterTargets := created.clusterName, config := payload }),
               [Effect.repoCreate request, Effect.refreshSucceeded])

/-- update_route_handler from route_handlers.rs: validate, check the payload
name against the path, fetch the existing record, convert and smoke-test,
update, refresh, then answer 200 with the freshly computed summaries. -/
def update_route_handler (env : HandlerEnv) (name : String) (payload : RouteDefinition) :
    Except ApiError (Nat × RouteResponse) × List Effect :=
  match validate_route_payload payload with
  | .error e => (.error e, [])
  | .ok _ =>
    if payload.name ≠ name then
      (.error (.badRequest "Payload route name does not match path"), [])
    else if env.repoAvailable = false then
      (.error (.serviceUnavailable "Route repository not configured"), [])
    else
      match env.getByName payload.name with
      | .error e => (.error e, [])
      | .ok existing =>
        match RouteDefinition.to_xds_config payload with
        | .error e => (.error e, [])
        | .ok xdsConfig =>
          if env.envoyEncodeOk xdsConfig = false then
            (.error (.validationError "Invalid route configuration"), [])
          else
            let s := summarize_route payload
            let request : UpdateRouteRepositoryRequest :=
              { pathPrefix := some s.1, clusterName := some s.2,
                configuration := some xdsConfig }
            match env.updateResult with
            | .error e => (.error e, [Effect.repoUpdate existing.id request])
            | .ok updated =>
              match env.refreshResult with
              | .error e => (.error e, [Effect.repoUpdate existing.id request, Effect.refreshFailed])
              | .ok _ =>
                (.ok (200,
                   { name := updated.name, pathPrefix := s.1,
                     clusterTargets := s.2, config := payload }),
                 [Effect.repoUpdate existing.id request, Effect.refreshSucceeded])

/-- delete_route_handler from route_handlers.rs: the default-gateway guard
runs before the repository is consulted; then fetch, delete, refresh, 204. -/
def delete_route_handler (env : HandlerEnv) (name : String) :
    Except ApiError Nat × List Effect :=
  if is_default_gateway_route name then
    (.error (.conflict "The default gateway route configuration cannot be deleted"), [])
  else if env.repoAvailable = false then
    (.error (.serviceUnavailable "Route repository not configured"), [])
  else
    match env.getByName name with
    | .error e => (.error e, [])
    | .ok existing =>
      match env.deleteResult with
      | .error e => (.error e, [Effect.repoDelete existing.id])
      | .ok _ =>
        match env.refreshResult with
        | .error e => (.error e, [Effect.repoDelete existing.id, Effect.refreshFailed])
        | .ok _ => (.ok 204, [Effect.repoDelete existing.id, Effect.refreshSucceeded])

/-- The HTTP status of a successful handler result, if any. -/
def okStatus {α : Type} : Except ApiError (Nat × α) → Option Nat
  | .ok (st, _) => some st
  | .error _ => none

/-- A serde_json value: numbers are rationals (as_u64 succeeds only on
non-negative integers that fit u64), objects are ordered key/value lists
with first-key lookup. -/
inductive Json where
  | null
  | bool (b : Bool)
  | num (q : Rat)
  | str (s : String)
  | arr (items : List Json)
  | obj (entries : List (String × Json))

/-- Object lookup on an entry list, first match wins (serde_json Map::get). -/
def lookupEntries : List (String × Json) → String → Option Json
  | [], _ => none
  | (k, v) :: rest, key => if k = key then some v else lookupEntries rest key

/-- Value::get with a string key: object lookup, None on other shapes. -/
def Json.get : Json → String → Option Json
  | .obj entries, key => lookupEntries entries key
  | _, _ => none

/-- Value::as_u64: the value of a non-negative integral number below 2^64. -/
def Json.asU64 : Json → Option Nat
  | .num q => if q.den = 1 ∧ 0 ≤ q.num ∧ q.num < 2 ^ 64 then some q.num.toNat else none
  | _ => none

/-- Value::as_str. -/
def Json.asStr : Json → Option String
  | .str s => some s
  | _ => none

/-- Value::as_bool. -/
def Json.asBool : Json → Option Bool
  | .bool b => some b
  | _ => none

/-- Value::as_array. -/
def Json.asArray : Json → Option (List Json)
  | .arr items => some items
  | _ => none

/-- Value::as_object, as the entry list. -/
def Json.asObject : Json → Option (List (String × Json))
  | .obj entries => some entries
  | _ => none

/-- RateLimitPolicy from platform_api_definitions.rs (requests is a u32; the
source casts the parsed u64 with a truncating "as"). -/
structure RateLimitPolicy where
  requests : Nat
  interval : String
  keyBy : Option String
deriving DecidableEq, Repr

/-- AuthenticationPolicy from platform_api_definitions.rs. -/
structure AuthenticationPolicy where
  authType : String
  required : Bool
  config : Option Json

/-- AuthorizationPolicy from platform_api_definitions.rs. -/
structure AuthorizationPolicy where
  roles : Option (List String)
  permissions : Option (List String)
deriving DecidableEq, Repr

/-- CorsPolicy from platform_api_definitions.rs. -/
structure CorsPolicy where
  origins : List String
  methods : List String
  headers : List String
  allowCredentials : Bool
  maxAge : Option Nat
deriving DecidableEq, Repr

/-- CircuitBreakerPolicy from platform_api_definitions.rs. -/
structure CircuitBreakerPolicy where
  maxRequests : Option Nat
  intervalMs : Option Nat
  consecutiveErrors : Option Nat
deriving DecidableEq, Repr

/-- RetryPolicy from platform_api_definitions.rs. -/
structure RetryPolicy where
  attempts : Nat
  backoff : String
  initialDelayMs : Option Nat
deriving DecidableEq, Repr

/-- TimeoutPolicy from platform_api_definitions.rs. -/
structure TimeoutPolicy where
  request : Option Nat
  idle : Option Nat
deriving DecidableEq, Repr

/-- ApiPolicies from platform_api_definitions.rs. -/
structure ApiPolicies where
  rateLimit : Option RateLimitPolicy
  authentication : Option AuthenticationPolicy
  authorization : Option AuthorizationPolicy
  cors : Option CorsPolicy
  circuitBreaker : Option CircuitBreakerPolicy
  retry : Option RetryPolicy
  timeout : Option TimeoutPolicy

/-- The x-flowplane-ratelimit step of extract_flowplane_policies
(platform_openapi_handlers.rs): the emitted policy, if any, and the warnings
this step pushes.  A tag whose requests field is not an integer warns; a tag
with integral requests but a non-string interval falls through the inner if
without a warning. -/
def extractRateLimit (operation : Json) : Option RateLimitPolicy × List String :=
  match operation.get "x-flowplane-ratelimit" with
  | none => (none, [])
  | some rateLimit =>
    match (rateLimit.get "requests").bind Json.asU64 with
    | some requests =>
      match (rateLimit.get "interval").bind Json.asStr with
      | some interval =>
        (some { requests := requests % 2 ^ 32, interval := interval,
                keyBy := (rateLimit.get "keyBy").bind Json.asStr }, [])
      | none => (none, [])
    | none => (none, ["Invalid x-flowplane-ratelimit format"])

/-- The x-flowplane-jwt-auth step of extract_flowplane_policies
(platform_openapi_handlers.rs). -/
def extractJwtAuth (operation : Json) : Option AuthenticationPolicy :=
  match operation.get "x-flowplane-jwt-auth" with
  | none => none
  | some auth =>
    some { authType := "jwt"
           required := ((auth.get "required").bind Json.asBool).getD true
           config := some (Json.obj
             [("issuer", (auth.get "issuer").getD Json.null),
              ("audience", (auth.get "audience").getD Json.null)]) }

/-- A JSON array of strings to a string list, dropping non-strings
(serde_json filter_map over as_str). -/
def stringList (v : Json) : Option (List String) :=
  (v.asArray).map fun items => items.filterMap Json.asStr

/-- The x-flowplane-cors step of extract_flowplane_policies
(platform_openapi_handlers.rs), with the documented defaults. -/
def extractCors (operation : Json) : Option CorsPolicy :=
  match operation.get "x-flowplane-cors" with
  | none => none
  | some cors =>
    some { origins := (((cors.get "origins").bind stringList)).getD ["*"]
           methods := (((cors.get "methods").bind stringList)).getD ["GET", "POST"]
           headers := (((cors.get "headers").bind stringList)).getD
             ["Content-Type", "Authorization"]
           allowCredentials := ((cors.get "allowCredentials").bind Json.asBool).getD false
           maxAge := (((cors.get "maxAge").bind Json.asU64).map fun u => u % 2 ^ 32) }

/-- The known x-flowplane tags of extract_flowplane_policies. -/
def knownFlowplaneTags : List String :=
  ["x-flowplane-ratelimit", "x-flowplane-jwt-auth", "x-flowplane-cors"]

/-- The unknown-tag loop of extract_flowplane_policies: one warning per
object key that starts with "x-flowplane-" and is not a known tag. -/
def unknownTagWarnings : List (String × Json) → List String
  | [] => []
  | (key, _) :: rest =>
    if strStartsWith key "x-flowplane-" && !(knownFlowplaneTags.contains key) then
      ("Unknown flowplane tag: " ++ key) :: unknownTagWarnings rest
    else unknownTagWarnings rest

/-- extract_flowplane_policies from platform_openapi_handlers.rs: the policies
(Some only when a rate-limit, authentication or cors policy was emitted) and
the accumulated warnings. -/
def extract_flowplane_policies (operation : Json) : Option ApiPolicies × List String :=
  let rl := extractRateLimit operation
  let auth := extractJwtAuth operation
  let cors := extractCors operation
  let warnings := rl.2 ++ unknownTagWarnings ((operation.asObject).getD [])
  let policies : ApiPolicies :=
    { rateLimit := rl.1, authentication := auth, authorization := none, cors := cors,
      circuitBreaker := none, retry := none, timeout := none }
  let hasPolicies := rl.1.isSome || auth.isSome || cors.isSome
  (if hasPolicies then some policies else none, warnings)

/-- Whether extract_flowplane_policies emitted a rate-limit policy. -/
def emittedRateLimit (res : Option ApiPolicies × List String) : Bool :=
  match res.1 with
  | some p => p.rateLimit.isSome
  | none => false

/-- The well-formedness of an x-flowplane-ratelimit tag as the claim states
it: the tag is present and carries an integer requests and a string
interval. -/
def rlWellFormed (operation : Json) : Bool :=
  match operation.get "x-flowplane-ratelimit" with
  | none => false
  | some rateLimit =>
    ((rateLimit.get "requests").bind Json.asU64).isSome
      && ((rateLimit.get "interval").bind Json.asStr).isSome

/-- UpstreamEndpoint from platform_api_definitions.rs. -/
structure UpstreamEndpoint where
  host : String
  port : Nat
  weight : Nat
deriving DecidableEq, Repr

/-- UpstreamConfig from platform_api_definitions.rs. -/
structure UpstreamConfig where
  service : String
  endpoints : List UpstreamEndpoint
  tls : Bool
  loadBalancing : String
deriving DecidableEq, Repr

/-- ApiRoute from platform_api_definitions.rs. -/
structure ApiRoute where
  path : String
  methods : List String
  description : Option String
  policies : Option ApiPolicies

/-- ApiDefinition from platform_api_definitions.rs. -/
structure ApiDefinition where
  name : String
  version : String
  basePath : String
  upstream : UpstreamConfig
  routes : List ApiRoute
  policies : Option ApiPolicies
  metadata : Option Json

/-- ApiDefinitionResponse from platform_api_definitions.rs. -/
structure ApiDefinitionResponse where
  id : String
  name : String
  version : String
  basePath : String
  upstream : UpstreamConfig
  routes : List ApiRoute
  policies : Option ApiPolicies
  routeConfigId : String
  listenerId : String
  clusterId : String
  metadata : Option Json
  createdAt : String
  updatedAt : String

/-- The derived validator of ApiDefinition (platform_api_definitions.rs):
name 1..=100, version 1..=50, base path 1..=255, non-empty routes; the
handlers wrap a failure as a BadRequest. -/
def apiDefinitionValidate (api : ApiDefinition) : Except ApiError Unit :=
  if lengthBetween api.name 1 100 = false then
    .error (.badRequest "Validation failed: name")
  else if lengthBetween api.version 1 50 = false then
    .error (.badRequest "Validation failed: version")
  else if lengthBetween api.basePath 1 255 = false then
    .error (.badRequest "Validation failed: basePath")
  else if api.routes.isEmpty then
    .error (.badRequest "Validation failed: routes")
  else .ok ()

/-- Modelled from the spec: CreateClusterBody of the Native cluster API
(src/api/handlers.rs is outside the verified files); the fields follow its
construction in api_to_cluster. -/
structure EndpointRequest where
  host : String
  port : Nat
deriving DecidableEq, Repr

/-- Modelled from the spec: the health-check request shape of the Native
cluster API, kept opaque (api_to_cluster always passes an empty list). -/
structure HealthCheckRequest where
  tag : String
deriving DecidableEq, Repr

/-- Modelled from the spec: CreateClusterBody of the Native cluster API, with
the fields api_to_cluster fills (circuit breakers and outlier detection are
always None there and stay opaque). -/
structure CreateClusterBody where
  name : String
  serviceName : Option String
  endpoints : List EndpointRequest
  connectTimeoutSeconds : Option Nat
  useTls : Option Bool
  tlsServerName : Option String
  dnsLookupFamily : Option String
  lbPolicy : Option String
  healthChecks : List HealthCheckRequest
deriving DecidableEq, Repr

/-- api_to_cluster from platform_api_definitions.rs: the derived cluster body
for an ApiDefinition (the circuit-breaker branch of the source only carries a
comment and adds nothing). -/
def api_to_cluster (api : ApiDefinition) (clusterName : String) : CreateClusterBody :=
  { name := clusterName
    serviceName := some api.upstream.service
    endpoints := api.upstream.endpoints.map fun ep => { host := ep.host, port := ep.port }
    connectTimeoutSeconds :=
      (api.policies.bind fun p => p.timeout).bind fun t => t.request
    useTls := some api.upstream.tls
    tlsServerName := none
    dnsLookupFamily := none
    lbPolicy := some api.upstream.loadBalancing
    healthChecks := [] }

/-- api_to_route_config from platform_api_definitions.rs: one virtual host
named after the API with a prefix rule per route, forwarding to the upstream
service. -/
def api_to_route_config (api : ApiDefinition) (routeConfigName : String) : RouteDefinition :=
  { name := routeConfigName
    virtualHosts :=
      [{ name := api.name
         domains := ["*"]
         routes := api.routes.map fun route =>
           { name := route.description
             rMatch :=
               { path := .Prefix (api.basePath ++ route.path)
                 headers := []
                 queryParameters := [] }
             action := .Forward api.upstream.service
               ((api.policies.bind fun p => p.timeout).bind fun t => t.request)
               none none
             typedPerFilterConfig := [] }
         typedPerFilterConfig := [] }] }

/-- create_api_definition_handler from platform_api_definitions.rs: after
validation it derives ids and cluster/route bodies but persists nothing
(the source discards them behind leading-underscore bindings) and answers
201; the effect trace is empty because no repository call is made. -/
def create_api_definition_handler (api : ApiDefinition) (apiId : String) (nowTs : String) :
    Except ApiError (Nat × ApiDefinitionResponse) × List Effect :=
  match apiDefinitionValidate api with
  | .error e => (.error e, [])
  | .ok _ =>
    let clusterId := apiId ++ "-cluster"
    let routeConfigId := apiId ++ "-routes"
    let listenerId := apiId ++ "-listener"
    let _clusterConfig := api_to_cluster api clusterId
    let _routeConfig := api_to_route_config api routeConfigId
    (.ok (201,
       { id := apiId, name := api.name, version := api.version, basePath := api.basePath,
         upstream := api.upstream, routes := api.routes, policies := api.policies,
         routeConfigId := routeConfigId, listenerId := listenerId, clusterId := clusterId,
         metadata := api.metadata, createdAt := nowTs, updatedAt := nowTs }),
     [])

/-- get_api_definition_by_id_handler from platform_api_definitions.rs: always
NotFound. -/
def get_api_definition_by_id_handler (id : String) :
    Except ApiError (Nat × ApiDefinitionResponse) × List Effect :=
  (.error (.notFound ("API definition with ID " ++ id ++ " not found")), [])

/-- update_api_definition_handler from platform_api_definitions.rs: validates
the payload, then always NotFound. -/
def update_api_definition_handler (id : String) (api : ApiDefinition) :
    Except ApiError (Nat × ApiDefinitionResponse) × List Effect :=
  match apiDefinitionValidate api with
  | .error e => (.error e, [])
  | .ok _ => (.error (.notFound ("API definition with ID " ++ id ++ " not found")), [])

/-- delete_api_definition_handler from platform_api_definitions.rs: always
NotFound. -/
def delete_api_definition_handler (id : String) : Except ApiError Nat × List Effect :=
  (.error (.notFound ("API definition with ID " ++ id ++ " not found")), [])

/-- Modelled from the spec: the pieces of a parsed absolute URL that section
4.F uses (the url crate is external to the repository): scheme, host,
optional port, and the path defaulting to "/". -/
structure ParsedUrl where
  scheme : String
  host : String
  port : Option Nat
  path : String
deriving DecidableEq, Repr

/-- Modelled from the spec: parsing of scheme://host[:port][/path] URLs as
used by the importer (steps 3 and 4 of section 4.F). -/
def parse_url (url : String) : Option ParsedUrl :=
  match breakOnSep "://".data url.data with
  | none => none
  | some (schemeCs, restCs) =>
    if schemeCs.isEmpty || restCs.isEmpty then none
    else
      let authorityCs := restCs.takeWhile fun c => c != '/'
      let pathCs := restCs.dropWhile fun c => c != '/'
      let path := if pathCs.isEmpty then "/" else String.mk pathCs
      match splitAll ':' authorityCs with
      | [hostCs] =>
        if hostCs.isEmpty then none
        else some { scheme := String.mk schemeCs, host := String.mk hostCs,
                    port := none, path := path }
      | [hostCs, portCs] =>
        if hostCs.isEmpty then none
        else
          match strToNatOpt (String.mk portCs) with
          | some n =>
            if n < 65536 then
              some { scheme := String.mk schemeCs, host := String.mk hostCs,
                     port := some n, path := path }
            else none
          | none => none
      | _ => none

/-- The HTTP methods the importer scans on each path item
(platform_openapi_handlers.rs). -/
def methodsList : List String :=
  ["get", "post", "put", "delete", "patch", "options", "head"]

/-- The inner method loop of openapi_to_api_definition: one ApiRoute per
method present on the path item, with that operation's extracted policies
and warnings. -/
def processMethods (path : String) (item : Json) : List String → List ApiRoute × List String
  | [] => ([], [])
  | m :: ms =>
    let rest := processMethods path item ms
    match item.get m with
    | none => rest
    | some operation =>
      let description :=
        (((operation.get "summary").orElse fun _ => operation.get "description").bind
          Json.asStr)
      let pw := extract_flowplane_policies operation
      ({ path := path, methods := [strToUpper m], description := description,
         policies := pw.1 } :: rest.1,
       pw.2 ++ rest.2)

/-- The outer path loop of openapi_to_api_definition. -/
def collectPaths : List (String × Json) → List ApiRoute × List String
  | [] => ([], [])
  | (p, item) :: rest =>
    let here := processMethods p item methodsList
    let there := collectPaths rest
    (here.1 ++ there.1, here.2 ++ there.2)

/-- The first server URL of an OpenAPI document, as the importer reads it. -/
def firstServerUrl (spec : Json) : Option String :=
  ((((spec.get "servers").bind Json.asArray).bind List.head?).bind fun server =>
    (server.get "url").bind Json.asStr)

/-- openapi_to_api_definition from platform_openapi_handlers.rs: version and
base-path derivation with overrides, upstream from the first server URL with
the synthesized fallback, routes and policies from the paths, the first
route's policies as globals, and the accumulated warnings.  The source
signature is fallible but has no error path. -/
def openapi_to_api_definition (spec : Json) (name : String)
    (versionOverride : Option String) (basePathOverride : Option String) :
    Except ApiError (ApiDefinition × List String) :=
  let version := versionOverride.getD
    ((((spec.get "info").bind fun i => i.get "version").bind Json.asStr).getD "1.0.0")
  let basePath := basePathOverride.getD
    (match firstServerUrl spec with
     | none => "/"
     | some url =>
       match parse_url url with
       | some parsed => parsed.path
       | none => if strStartsWith url "/" then url else "/")
  let upstream : UpstreamConfig :=
    match (firstServerUrl spec).bind fun url =>
        (parse_url url).map fun parsed =>
          ({ service := name ++ "-backend"
             endpoints := [{ host := parsed.host
                             port := parsed.port.getD (if parsed.scheme == "https" then 443 else 80)
                             weight := 100 }]
             tls := parsed.scheme == "https"
             loadBalancing := "ROUND_ROBIN" } : UpstreamConfig) with
    | some u => u
    | none =>
      { service := name ++ "-backend"
        endpoints := [{ host := "backend.example.com", port := 80, weight := 100 }]
        tls := false
        loadBalancing := "ROUND_ROBIN" }
  let rw := collectPaths (((spec.get "paths").bind Json.asObject).getD [])
  let globalPolicies := rw.1.head?.bind fun r => r.policies
  .ok
    ({ name := name, version := version, basePath := basePath, upstream := upstream,
       routes := rw.1, policies := globalPolicies
       metadata := some (Json.obj
         [("openapi_version", Json.str (((spec.get "openapi").bind Json.asStr).getD "3.0.0")),
          ("info", (spec.get "info").getD Json.null)]) },
     rw.2)

/-- OpenApiImportQuery from platform_openapi_handlers.rs. -/
structure OpenApiImportQuery where
  name : String
  version : Option String
  basePath : Option String
deriving DecidableEq, Repr

/-- OpenApiImportResponse from platform_openapi_handlers.rs. -/
structure OpenApiImportResponse where
  id : String
  name : String
  version : String
  basePath : String
  upstream : UpstreamConfig
  routes : List ApiRoute
  policies : Option ApiPolicies
  metadata : Option Json
  warnings : Option (List String)
  createdAt : String

/-- import_openapi_handler from platform_openapi_handlers.rs.  The body is
taken as the outcome of reading and parsing the request (JSON or YAML by
content type); the generated id and timestamp are inputs.  The handler
checks the document is OpenAPI 3.x, converts it, and answers 201.  It makes
no repository call and triggers no xDS refresh, so its effect trace is
empty. -/
def import_openapi_handler (params : OpenApiImportQuery) (body : Except String Json)
    (apiId : String) (nowTs : String) :
    Except ApiError (Nat × OpenApiImportResponse) × List Effect :=
  match body with
  | .error msg => (.error (.badRequest ("Invalid body: " ++ msg)), [])
  | .ok spec =>
    if (((spec.get "openapi").bind Json.asStr).map fun v => strStartsWith v "3.").getD false
        = false then
      (.error (.badRequest "Only OpenAPI 3.x specifications are supported"), [])
    else
      match openapi_to_api_definition spec params.name params.version params.basePath with
      | .error e => (.error e, [])
      | .ok apiDefWarnings =>
        let apiDef := apiDefWarnings.1
        let warnings := apiDefWarnings.2
        (.ok (201,
           { id := apiId, name := apiDef.name, version := apiDef.version,
             basePath := apiDef.basePath, upstream := apiDef.upstream,
             routes := apiDef.routes, policies := apiDef.policies,
             metadata := apiDef.metadata,
             warnings := if warnings.isEmpty then none else some warnings,
             createdAt := nowTs }),
         [])

/-- Modelled from the spec: EndpointSpec of the xds module (outside the
verified files); the source variant names are String and Address. -/
inductive EndpointSpec where
  | StringForm (value : String)
  | Address (host : String) (port : Nat)
deriving DecidableEq, Repr

/-- Modelled from the spec: HealthCheckSpec of the xds module; the Http
fields follow the constructions in the verified files, the Tcp fields the
common health-check fields of section 3. -/
inductive HealthCheckSpec where
  | Http (path : String) (host : Option String) (method : Option String)
      (intervalSeconds : Option Nat) (timeoutSeconds : Option Nat)
      (unhealthyThreshold : Option Nat) (healthyThreshold : Option Nat)
      (expectedStatuses : Option (List Nat))
  | Tcp (intervalSeconds : Option Nat) (timeoutSeconds : Option Nat)
      (unhealthyThreshold : Option Nat) (healthyThreshold : Option Nat)
deriving DecidableEq, Repr

/-- Modelled from the spec: CircuitBreakerThresholdsSpec of the xds module. -/
structure CircuitBreakerThresholdsSpec where
  maxConnections : Option Nat
  maxPendingRequests : Option Nat
  maxRequests : Option Nat
  maxRetries : Option Nat
deriving DecidableEq, Repr

/-- Modelled from the spec: CircuitBreakersSpec of the xds module. -/
structure CircuitBreakersSpec where
  default : Option CircuitBreakerThresholdsSpec
  high : Option CircuitBreakerThresholdsSpec
deriving DecidableEq, Repr

/-- Modelled from the spec: OutlierDetectionSpec of the xds module. -/
structure OutlierDetectionSpec where
  consecutive5xx : Option Nat
  intervalSeconds : Option Nat
  baseEjectionTimeSeconds : Option Nat
  maxEjectionPercent : Option Nat
deriving DecidableEq, Repr

/-- Modelled from the spec: ClusterSpec of the xds module; the field list
follows its construction in service_to_cluster_response
(platform_transformers.rs).  It carries no cluster name. -/
structure ClusterSpec where
  connectTimeoutSeconds : Option Nat
  endpoints : List EndpointSpec
  useTls : Option Bool
  tlsServerName : Option String
  dnsLookupFamily : Option String
  lbPolicy : Option String
  leastRequest : Option Nat
  ringHash : Option Nat
  maglev : Option Nat
  circuitBreakers : Option CircuitBreakersSpec
  healthChecks : List HealthCheckSpec
  outlierDetection : Option OutlierDetectionSpec
deriving DecidableEq, Repr

/-- Modelled from the spec: ClusterResponse of the Native cluster API
(src/api/handlers.rs is outside the verified files): name, service name and
the canonical ClusterSpec. -/
structure ClusterResponse where
  name : String
  serviceName : String
  config : ClusterSpec
deriving DecidableEq, Repr

/-- LoadBalancingStrategy from platform_service_handlers.rs. -/
inductive LoadBalancingStrategy where
  | RoundRobin
  | LeastRequest
  | Random
  | RingHash
  | Maglev
deriving DecidableEq, Repr

/-- ServiceEndpoint from platform_service_handlers.rs. -/
structure ServiceEndpoint where
  host : String
  port : Nat
  weight : Nat
  metadata : Option Json

/-- ServiceHealthCheck from platform_service_handlers.rs. -/
structure ServiceHealthCheck where
  path : String
  interval : Nat
  timeout : Nat
  healthyThreshold : Nat
  unhealthyThreshold : Nat
deriving DecidableEq, Repr

/-- ServiceCircuitBreaker from platform_service_handlers.rs. -/
structure ServiceCircuitBreaker where
  maxRequests : Option Nat
  maxPendingRequests : Option Nat
  maxConnections : Option Nat
  maxRetries : Option Nat
  consecutiveErrors : Option Nat
  intervalMs : Option Nat
deriving DecidableEq, Repr

/-- ServiceOutlierDetection from platform_service_handlers.rs. -/
structure ServiceOutlierDetection where
  consecutive5xx : Option Nat
  intervalMs : Option Nat
  baseEjectionTimeMs : Option Nat
  maxEjectionPercent : Option Nat
  minHealthyPercent : Option Nat
deriving DecidableEq, Repr

/-- ServiceResponse from platform_service_handlers.rs. -/
structure ServiceResponse where
  name : String
  clusterId : String
  endpoints : List ServiceEndpoint
  loadBalancing : LoadBalancingStrategy
  healthCheck : Option ServiceHealthCheck
  circuitBreaker : Option ServiceCircuitBreaker
  outlierDetection : Option ServiceOutlierDetection
  metadata : Option Json

/-- The host:port split used for string endpoints in cluster_to_service
(platform_transformers.rs): split at the last colon, a port that fails to
parse as a u16 falls back to 80, no colon means port 80. -/
def splitHostPort (s : String) : String × Nat :=
  match breakAtLast ':' s.data with
  | none => (s, 80)
  | some (hostCs, portCs) =>
    match strToNatOpt (String.mk portCs) with
    | some n => if n < 65536 then (String.mk hostCs, n) else (String.mk hostCs, 80)
    | none => (String.mk hostCs, 80)

/-- Modelled from the spec: EndpointSpec::to_host_port of the xds module
(outside the verified files): an Address yields its host and port, the
string form parses host:port the way the transformer does. -/
def EndpointSpec.to_host_port : EndpointSpec → Option (String × Nat)
  | .Address host port => some (host, port)
  | .StringForm s => some (splitHostPort s)

/-- Modelled from the spec: the std DefaultHasher that generate_id_from_name
(platform_transformers.rs) uses is library code outside the repository; it
is modelled as a fixed deterministic 64-bit fold over the name's
characters.  Every claim proved about it depends only on its being a function of
the name alone. -/
def default_hasher_hash (s : String) : Nat :=
  s.data.foldl
    (fun h c => ((h ^^^ c.toNat) * 1099511628211) % 2 ^ 64) 14695981039346656037

/-- generate_id_from_name from platform_transformers.rs: lowercase hex of
the 64-bit hash reduced mod 1000000. -/
def generate_id_from_name (name : String) : String :=
  String.mk (Nat.toDigits 16 (default_hasher_hash name % 1000000))

/-- string_to_load_balancing from platform_service_handlers.rs. -/
def string_to_load_balancing (s : String) : LoadBalancingStrategy :=
  match s with
  | "LEAST_REQUEST" => .LeastRequest
  | "RANDOM" => .Random
  | "RING_HASH" => .RingHash
  | "MAGLEV" => .Maglev
  | _ => .RoundRobin

/-- cluster_to_service from platform_transformers.rs: the lossy projection of
a canonical ClusterSpec to a Platform service response.  Its identity fields
come from the lb policy alone: the response name is the constant "cluster"
and the cluster id hashes lb_policy (or "unknown"). -/
def cluster_to_service (cluster : ClusterSpec) : ServiceResponse :=
  let endpoints := cluster.endpoints.map fun ep =>
    match ep with
    | .StringForm s =>
      let hp := splitHostPort s
      ({ host := hp.1, port := hp.2, weight := 100, metadata := none } : ServiceEndpoint)
    | .Address host port =>
      ({ host := host, port := port, weight := 100, metadata := none } : ServiceEndpoint)
  let loadBalancing :=
    match cluster.lbPolicy with
    | some "ROUND_ROBIN" => LoadBalancingStrategy.RoundRobin
    | some "RANDOM" => LoadBalancingStrategy.Random
    | some "LEAST_REQUEST" => LoadBalancingStrategy.LeastRequest
    | _ => LoadBalancingStrategy.RoundRobin
  let healthCheck := cluster.healthChecks.head?.map fun hc =>
    match hc with
    | .Http path _ _ intervalSeconds timeoutSeconds _ _ _ =>
      ({ path := path, interval := intervalSeconds.getD 10,
         timeout := timeoutSeconds.getD 5,
         healthyThreshold := 3, unhealthyThreshold := 3 } : ServiceHealthCheck)
    | .Tcp intervalSeconds timeoutSeconds _ _ =>
      ({ path := "/", interval := intervalSeconds.getD 10,
         timeout := timeoutSeconds.getD 5,
         healthyThreshold := 3, unhealthyThreshold := 3 } : ServiceHealthCheck)
  let circuitBreaker := cluster.circuitBreakers.bind fun cb =>
    ((cb.default.orElse fun _ => cb.high).map fun t =>
      ({ maxRequests := t.maxRequests, maxPendingRequests := t.maxPendingRequests,
         maxConnections := t.maxConnections, maxRetries := t.maxRetries,
         consecutiveErrors := some 5, intervalMs := some 10000 } : ServiceCircuitBreaker))
  let outlierDetection := cluster.outlierDetection.map fun od =>
    ({ consecutive5xx := od.consecutive5xx
       intervalMs := od.intervalSeconds.map fun s => s * 1000
       baseEjectionTimeMs := od.baseEjectionTimeSeconds.map fun s => s * 1000
       maxEjectionPercent := od.maxEjectionPercent
       minHealthyPercent := none } : ServiceOutlierDetection)
  let clusterId :=
    generate_id_from_name (cluster.lbPolicy.getD "unknown") ++ "-cluster"
  { name := "cluster"
    clusterId := clusterId
    endpoints := endpoints
    loadBalancing := loadBalancing
    healthCheck := healthCheck
    circuitBreaker := circuitBreaker
    outlierDetection := outlierDetection
    metadata := some (Json.obj
      [("source", Json.str "native_api"),
       ("cluster_name", Json.str (cluster.lbPolicy.getD "unknown"))]) }

/-- cluster_response_to_service from platform_service_handlers.rs: the
projection used by the Platform service list and get handlers.  An HTTP
health check keeps its thresholds when present and defaults them to 2/2; a
TCP first check yields no service health check. -/
def cluster_response_to_service (cluster : ClusterResponse) : ServiceResponse :=
  let endpoints := cluster.config.endpoints.filterMap fun ep =>
    (EndpointSpec.to_host_port ep).map fun hp =>
      ({ host := hp.1, port := hp.2 % 2 ^ 16, weight := 100, metadata := none } : ServiceEndpoint)
  let loadBalancing :=
    ((cluster.config.lbPolicy.map string_to_load_balancing)).getD .RoundRobin
  let healthCheck :=
    if cluster.config.healthChecks.isEmpty = false then
      cluster.config.healthChecks.head?.bind fun hc =>
        match hc with
        | .Http path _ _ intervalSeconds timeoutSeconds unhealthyThreshold healthyThreshold _ =>
          some ({ path := path, interval := intervalSeconds.getD 10,
                  timeout := timeoutSeconds.getD 3,
                  healthyThreshold := healthyThreshold.getD 2,
                  unhealthyThreshold := unhealthyThreshold.getD 2 } : ServiceHealthCheck)
        | .Tcp _ _ _ _ => none
    else none
  let circuitBreaker := cluster.config.circuitBreakers.bind fun cb =>
    cb.default.map fun t =>
      ({ maxRequests := t.maxRequests, maxPendingRequests := t.maxPendingRequests,
         maxConnections := t.maxConnections, maxRetries := t.maxRetries,
         consecutiveErrors := none, intervalMs := none } : ServiceCircuitBreaker)
  let outlierDetection := cluster.config.outlierDetection.map fun od =>
    ({ consecutive5xx := od.consecutive5xx
       intervalMs := od.intervalSeconds.map fun s => s * 1000
       baseEjectionTimeMs := od.baseEjectionTimeSeconds.map fun s => s * 1000
       maxEjectionPercent := od.maxEjectionPercent
       minHealthyPercent := none } : ServiceOutlierDetection)
  { name := cluster.name
    clusterId := cluster.name
    endpoints := endpoints
    loadBalancing := loadBalancing
    healthCheck := healthCheck
    circuitBreaker := circuitBreaker
    outlierDetection := outlierDetection
    metadata := none }

/-- A repository record used to instantiate the handler environment in
witnesses. -/
def sampleRouteData : RouteData :=
  { id := "route-id-1", name := "primary-routes", pathPrefix := "/api",
    clusterName := "api-cluster" }

/-- A handler environment in which every external call succeeds. -/
def sampleEnv : HandlerEnv :=
  { repoAvailable := true
    envoyEncodeOk := fun _ => true
    createResult := .ok sampleRouteData
    getByName := fun _ => .ok sampleRouteData
    updateResult := .ok sampleRouteData
    deleteResult := .ok ()
    refreshResult := .ok () }

/-- The sample route definition of the source tests: one virtual host, one
prefix rule forwarding to api-cluster. -/
def samplePayload : RouteDefinition :=
  { name := "primary-routes"
    virtualHosts :=
      [{ name := "default"
         domains := ["*"]
         routes :=
           [{ name := some "api"
              rMatch :=
                { path := .Prefix "/api", headers := [], queryParameters := [] }
              action := .Forward "api-cluster" (some 5) none none
              typedPerFilterConfig := [] }]
         typedPerFilterConfig := [] }] }

/-- A route definition exercising every path-match and action variant, with
header and query matches, used to instantiate the round-trip theorem. -/
def roundtripSample : RouteDefinition :=
  { name := "rt-routes"
    virtualHosts :=
      [{ name := "vh1"
         domains := ["*"]
         routes :=
           [{ name := some "r1"
              rMatch :=
                { path := .Exact "/health"
                  headers := [{ name := "x-a", value := some "1", regex := none, present := none }]
                  queryParameters :=
                    [{ name := "q", value := none, regex := some "[0-9]+", present := some true }] }
              action := .Forward "c1" (some 5) (some "/internal") none
              typedPerFilterConfig := [("f1", (HttpScopedConfig.mk "cfg1"))] },
            { name := none
              rMatch := { path := .Prefix "/api", headers := [], queryParameters := [] }
              action := .Weighted
                ([{ name := "blue", weight := 60, typedPerFilterConfig := [] },
                  { name := "green", weight := 40,
                    typedPerFilterConfig := [("f2", (HttpScopedConfig.mk "cfg2"))] }] :
                  List WeightedClusterDefinition)
                (some 100)
              typedPerFilterConfig := [] },
            { name := some "r3"
              rMatch := { path := .Regex "^/v[0-9]+/.*", headers := [], queryParameters := [] }
              action := .Redirect (some "example.com") (some "/new") (some 301)
              typedPerFilterConfig := [] },
            { name := some "r4"
              rMatch := { path := .Template "/api/v1/users/a", headers := [], queryParameters := [] }
              action := .Forward "c2" none none (some "/users/a")
              typedPerFilterConfig := [] }]
         typedPerFilterConfig := [("vf", (HttpScopedConfig.mk "vcfg"))] }] }

/-- The wire form of roundtripSample under to_xds_config. -/
def roundtripSampleWire : XdsRouteConfig :=
  { name := "rt-routes"
    virtualHosts :=
      [{ name := "vh1"
         domains := ["*"]
         routes :=
           [{ name := some "r1"
              rMatch :=
                { path := .Exact "/health"
                  headers := some
                    [{ name := "x-a", value := some "1", regex := none, present := none }]
                  queryParameters := some
                    [{ name := "q", value := none, regex := some "[0-9]+", present := some true }] }
              action := .Cluster "c1" (some 5) (some "/internal") none
              typedPerFilterConfig := [("f1", (HttpScopedConfig.mk "cfg1"))] },
            { name := none
              rMatch := { path := .Prefix "/api", headers := none, queryParameters := none }
              action := .WeightedClusters
                ([{ name := "blue", weight := 60, typedPerFilterConfig := [] },
                  { name := "green", weight := 40,
                    typedPerFilterConfig := [("f2", (HttpScopedConfig.mk "cfg2"))] }] :
                  List XdsWeightedClusterConfig)
                (some 100)
              typedPerFilterConfig := [] },
            { name := some "r3"
              rMatch := { path := .Regex "^/v[0-9]+/.*", headers := none, queryParameters := none }
              action := .Redirect (some "example.com") (some "/new") (some 301)
              typedPerFilterConfig := [] },
            { name := some "r4"
              rMatch := { path := .Template "/api/v1/users/a", headers := none, queryParameters := none }
              action := .Cluster "c2" none none (some "/users/a")
              typedPerFilterConfig := [] }]
         typedPerFilterConfig := [("vf", (HttpScopedConfig.mk "vcfg"))] }] }

/-- A minimal OpenAPI 3 document with no servers and no paths. -/
def minimalOpenApiSpec : Json := Json.obj [("openapi", Json.str "3.0.0")]

/-- An operation whose x-flowplane-ratelimit tag carries an integral requests
field but no interval: the malformed shape the rate-limit extraction drops
silently. -/
def ratelimitNoIntervalOp : Json :=
  Json.obj [("x-flowplane-ratelimit", Json.obj [("requests", Json.num 100)])]

/-- An operation whose x-flowplane-ratelimit tag has a non-integer requests
field, plus an unknown x-flowplane tag. -/
def ratelimitBadRequestsOp : Json :=
  Json.obj
    [("x-flowplane-ratelimit", Json.obj [("requests", Json.str "many")]),
     ("x-flowplane-invalid-filter", Json.obj [])]

/-- A cluster spec carrying one HTTP health check without thresholds. -/
def sampleClusterSpec : ClusterSpec :=
  { connectTimeoutSeconds := some 5
    endpoints := [.Address "user-service.internal" 8080]
    useTls := some false
    tlsServerName := none
    dnsLookupFamily := none
    lbPolicy := some "ROUND_ROBIN"
    leastRequest := none
    ringHash := none
    maglev := none
    circuitBreakers := none
    healthChecks := [.Http "/health" none none none none none none none]
    outlierDetection := none }

/-- A native cluster response wrapping sampleClusterSpec. -/
def sampleClusterResponse : ClusterResponse :=
  { name := "api-cluster", serviceName := "api", config := sampleClusterSpec }

/-- sampleClusterSpec with a different endpoint list (and the same lb
policy), to instantiate the identity-independence statement. -/
def sampleClusterSpecOther : ClusterSpec :=
  { connectTimeoutSeconds := none
    endpoints := [.Address "other-host.internal" 9090, .StringForm "10.0.0.1:80"]
    useTls := some true
    tlsServerName := some "other"
    dnsLookupFamily := none
    lbPolicy := some "ROUND_ROBIN"
    leastRequest := none
    ringHash := none
    maglev := none
    circuitBreakers := none
    healthChecks := []
    outlierDetection := none }

/-- A valid Platform API definition (the S4 scenario of the specification). -/
def sampleApiDefinition : ApiDefinition :=
  { name := "users-api"
    version := "1.0.0"
    basePath := "/api/v1/users"
    upstream :=
      { service := "user-service"
        endpoints := [{ host := "user-service.internal", port := 8080, weight := 100 }]
        tls := false
        loadBalancing := "ROUND_ROBIN" }
    routes :=
      [{ path := "/", methods := ["GET", "POST"], description := none, policies := none }]
    policies := none
    metadata := none }

/-- Whether a path match is the Template variant. -/
def isTemplatePath : PathMatchDefinition → Bool
  | .Template _ => true
  | _ => false

/-- Whether an action is the Forward variant. -/
def isForwardAction : RouteActionDefinition → Bool
  | .Forward _ _ _ _ => true
  | _ => false

/-- Whether an action is Forward with prefixRewrite set. -/
def forwardPrefixRewriteSet : RouteActionDefinition → Bool
  | .Forward _ _ (some _) _ => true
  | _ => false

/-- Whether an action is Forward with templateRewrite set. -/
def forwardTemplateRewriteSet : RouteActionDefinition → Bool
  | .Forward _ _ _ (some _) => true
  | _ => false

theorem crossFieldCheck_template_prefixRewrite (r : RouteRuleDefinition)
    (hp : isTemplatePath r.rMatch.path = true)
    (ha : forwardPrefixRewriteSet r.action = true) :
    ∃ e, crossFieldCheck r = .error e := by
  obtain ⟨n, m, a, cfg⟩ := r
  obtain ⟨path, hs, qs⟩ := m
  cases path <;> simp [isTemplatePath] at hp
  cases a with
  | Forward c t pr tr =>
    cases pr with
    | none => simp [forwardPrefixRewriteSet] at ha
    | some p =>
      cases tr <;>
        exact ⟨ApiError.validationError "Template path matches do not support prefixRewrite",
          by unfold crossFieldCheck; rfl⟩
  | Weighted cs tw => simp [forwardPrefixRewriteSet] at ha
  | Redirect h1 p1 rc => simp [forwardPrefixRewriteSet] at ha

theorem crossFieldCheck_template_nonforward (r : RouteRuleDefinition)
    (hp : isTemplatePath r.rMatch.path = true)
    (ha : isForwardAction r.action = false) :
    ∃ e, crossFieldCheck r = .error e := by
  obtain ⟨n, m, a, cfg⟩ := r
  obtain ⟨path, hs, qs⟩ := m
  cases path <;> simp [isTemplatePath] at hp
  cases a with
  | Forward c t pr tr => simp [isForwardAction] at ha
  | Weighted cs tw =>
    exact ⟨ApiError.validationError "Template path matches require a forward action",
      by unfold crossFieldCheck; rfl⟩
  | Redirect h1 p1 rc =>
    cases h1 <;> cases p1 <;> cases rc <;>
      exact ⟨ApiError.validationError "Template path matches require a forward action",
        by unfold crossFieldCheck; rfl⟩

theorem crossFieldCheck_templateRewrite_nontemplate (r : RouteRuleDefinition)
    (hp : isTemplatePath r.rMatch.path = false)
    (ha : forwardTemplateRewriteSet r.action = true) :
    ∃ e, crossFieldCheck r = .error e := by
  obtain ⟨n, m, a, cfg⟩ := r
  obtain ⟨path, hs, qs⟩ := m
  cases a with
  | Forward c t pr tr =>
    cases tr with
    | none => simp [forwardTemplateRewriteSet] at ha
    | some t2 =>
      cases pr <;> cases path <;> simp [isTemplatePath] at hp <;>
        exact ⟨ApiError.validationError "templateRewrite requires a template path match",
          by unfold crossFieldCheck; rfl⟩
  | Weighted cs tw => simp [forwardTemplateRewriteSet] at ha
  | Redirect h1 p1 rc => simp [forwardTemplateRewriteSet] at ha

theorem validateRouteRuleFull_error_of_cross (r : RouteRuleDefinition)
    (h : ∃ e, crossFieldCheck r = .error e) :
    ∃ e, validateRouteRuleFull r = .error e := by
  unfold validateRouteRuleFull
  cases h1 : routeRuleValidate r with
  | error e1 => exact ⟨e1, rfl⟩
  | ok u =>
    cases h2 : validate_route_match r.rMatch with
    | error e2 => exact ⟨e2, rfl⟩
    | ok u2 =>
      cases h3 : validate_route_action r.action with
      | error e3 => exact ⟨e3, rfl⟩
      | ok u3 => exact h

theorem validateRules_error (r : RouteRuleDefinition) (rs : List RouteRuleDefinition)
    (hm : r ∈ rs) (h : ∃ e, validateRouteRuleFull r = .error e) :
    ∃ e, validateRules rs = .error e := by
  induction rs with
  | nil => cases hm
  | cons a as ih =>
    cases h1 : validateRouteRuleFull a with
    | error e1 => exact ⟨e1, by simp [validateRules, h1]⟩
    | ok u =>
      rcases List.mem_cons.mp hm with heq | hmem
      · obtain ⟨e, he⟩ := h
        rw [heq] at he
        rw [h1] at he
        cases he
      · obtain ⟨e, he⟩ := ih hmem
        exact ⟨e, by simp [validateRules, h1, he]⟩

theorem validateVirtualHostFull_error (vh : VirtualHostDefinition) (r : RouteRuleDefinition)
    (hm : r ∈ vh.routes) (h : ∃ e, validateRouteRuleFull r = .error e) :
    ∃ e, validateVirtualHostFull vh = .error e := by
  unfold validateVirtualHostFull
  cases h1 : virtualHostValidate vh with
  | error e1 => exact ⟨e1, rfl⟩
  | ok u =>
    cases hd : vh.domains.any fun domain => isBlank domain with
    | true =>
      exact ⟨ApiError.validationError "Virtual host domains must not be empty", by simp⟩
    | false =>
      obtain ⟨e, he⟩ := validateRules_error r vh.routes hm h
      exact ⟨e, by simp [he]⟩

theorem validateVirtualHosts_error (vh : VirtualHostDefinition)
    (vhs : List VirtualHostDefinition) (hm : vh ∈ vhs)
    (h : ∃ e, validateVirtualHostFull vh = .error e) :
    ∃ e, validateVirtualHosts vhs = .error e := by
  induction vhs with
  | nil => cases hm
  | cons a as ih =>
    cases h1 : validateVirtualHostFull a with
    | error e1 => exact ⟨e1, by simp [validateVirtualHosts, h1]⟩
    | ok u =>
      rcases List.mem_cons.mp hm with heq | hmem
      · obtain ⟨e, he⟩ := h
        rw [heq] at he
        rw [h1] at he
        cases he
      · obtain ⟨e, he⟩ := ih hmem
        exact ⟨e, by simp [validateVirtualHosts, h1, he]⟩

theorem validate_route_payload_error (d : RouteDefinition) (vh : VirtualHostDefinition)
    (r : RouteRuleDefinition) (hvh : vh ∈ d.virtualHosts) (hr : r ∈ vh.routes)
    (h : ∃ e, validateRouteRuleFull r = .error e) :
    ∃ e, validate_route_payload d = .error e := by
  unfold validate_route_payload
  cases h1 : routeDefinitionValidate d with
  | error e1 => exact ⟨e1, rfl⟩
  | ok u =>
    exact validateVirtualHosts_error vh d.virtualHosts hvh
      (validateVirtualHostFull_error vh r hr h)

theorem ne_empty_of_not_blank (s : String) (h : isBlank s = false) : s ≠ "" := by
  intro he
  rw [he] at h
  rw [(rfl : isBlank "" = true)] at h
  cases h

/-- Claim C3: validate_route_payload rejects every rule pairing a Template
path match with Forward carrying prefixRewrite, every rule pairing a
Template path match with a non-Forward action, and every rule carrying
templateRewrite on Forward without a Template path match; and a rule pairing
a Template match with Forward carrying only templateRewrite passes the
per-rule validation when its remaining fields are valid. -/
theorem validate_route_payload_template_rules :
    (∀ d vh r, vh ∈ d.virtualHosts → r ∈ vh.routes →
       isTemplatePath r.rMatch.path = true → forwardPrefixRewriteSet r.action = true →
       ∃ e, validate_route_payload d = .error e) ∧
    (∀ d vh r, vh ∈ d.virtualHosts → r ∈ vh.routes →
       isTemplatePath r.rMatch.path = true → isForwardAction r.action = false →
       ∃ e, validate_route_payload d = .error e) ∧
    (∀ d vh r, vh ∈ d.virtualHosts → r ∈ vh.routes →
       isTemplatePath r.rMatch.path = false → forwardTemplateRewriteSet r.action = true →
       ∃ e, validate_route_payload d = .error e) ∧
    (∀ tmpl cluster rewriteTo timeout hdrs qps cfg,
       isBlank tmpl = false → isBlank cluster = false → isBlank rewriteTo = false →
       (hdrs.any fun h => isBlank h.name) = false →
       (qps.any fun q => isBlank q.name) = false →
       validateRouteRuleFull
         { name := none
           rMatch := { path := .Template tmpl, headers := hdrs, queryParameters := qps }
           action := .Forward cluster timeout none (some rewriteTo)
           typedPerFilterConfig := cfg } = .ok ()) := by
  refine ⟨?_, ?_, ?_, ?_⟩
  · intro d vh r hvh hr hp ha
    exact validate_route_payload_error d vh r hvh hr
      (validateRouteRuleFull_error_of_cross r (crossFieldCheck_template_prefixRewrite r hp ha))
  · intro d vh r hvh hr hp ha
    exact validate_route_payload_error d vh r hvh hr
      (validateRouteRuleFull_error_of_cross r (crossFieldCheck_template_nonforward r hp ha))
  · intro d vh r hvh hr hp ha
    exact validate_route_payload_error d vh r hvh hr
      (validateRouteRuleFull_error_of_cross r (crossFieldCheck_templateRewrite_nontemplate r hp ha))
  · intro tmpl cluster rewriteTo timeout hdrs qps cfg h1 h2 h3 h5 h6
    have htne : tmpl ≠ "" := ne_empty_of_not_blank tmpl h1
    have hrne : rewriteTo ≠ "" := ne_empty_of_not_blank rewriteTo h3
    unfold validateRouteRuleFull routeRuleValidate validate_route_match
      validate_route_action crossFieldCheck ensure_valid_uri_template
    simp [h1, h2, h3, h5, h6, htne, hrne]

/-- Witness for C3 at concrete inputs: a Template+prefixRewrite payload, a
Template+Redirect payload and a Prefix+templateRewrite payload are rejected;
a Template+Forward rule with only templateRewrite validates. -/
theorem validate_route_payload_template_rules_witness :
    (∃ e, validate_route_payload
      { name := "bad1"
        virtualHosts :=
          [{ name := "vh", domains := ["*"]
             routes :=
               [{ name := none
                  rMatch := { path := .Template "/t", headers := [], queryParameters := [] }
                  action := .Forward "c" none (some "/x") none
                  typedPerFilterConfig := [] }]
             typedPerFilterConfig := [] }] } = .error e) ∧
    (∃ e, validate_route_payload
      { name := "bad2"
        virtualHosts :=
          [{ name := "vh", domains := ["*"]
             routes :=
               [{ name := none
                  rMatch := { path := .Template "/t", headers := [], queryParameters := [] }
                  action := .Redirect (some "example.com") none none
                  typedPerFilterConfig := [] }]
             typedPerFilterConfig := [] }] } = .error e) ∧
    (∃ e, validate_route_payload
      { name := "bad3"
        virtualHosts :=
          [{ name := "vh", domains := ["*"]
             routes :=
               [{ name := none
                  rMatch := { path := .Prefix "/api", headers := [], queryParameters := [] }
                  action := .Forward "c" none none (some "/users/x")
                  typedPerFilterConfig := [] }]
             typedPerFilterConfig := [] }] } = .error e) ∧
    validateRouteRuleFull
      { name := none
        rMatch := { path := .Template "/api/v1/users/x", headers := [], queryParameters := [] }
        action := .Forward "c" none none (some "/users/x")
        typedPerFilterConfig := [] } = .ok () := by
  refine ⟨?_, ?_, ?_, ?_⟩
  · exact validate_route_payload_template_rules.1 _
      { name := "vh", domains := ["*"]
        routes :=
          [{ name := none
             rMatch := { path := .Template "/t", headers := [], queryParameters := [] }
             action := .Forward "c" none (some "/x") none
             typedPerFilterConfig := [] }]
        typedPerFilterConfig := [] }
      { name := none
        rMatch := { path := .Template "/t", headers := [], queryParameters := [] }
        action := .Forward "c" none (some "/x") none
        typedPerFilterConfig := [] }
      (by simp) (by simp) (by rfl) (by rfl)
  · exact validate_route_payload_template_rules.2.1 _
      { name := "vh", domains := ["*"]
        routes :=
          [{ name := none
             rMatch := { path := .Template "/t", headers := [], queryParameters := [] }
             action := .Redirect (some "example.com") none none
             typedPerFilterConfig := [] }]
        typedPerFilterConfig := [] }
      { name := none
        rMatch := { path := .Template "/t", headers := [], queryParameters := [] }
        action := .Redirect (some "example.com") none none
        typedPerFilterConfig := [] }
      (by simp) (by simp) (by rfl) (by rfl)
  · exact validate_route_payload_template_rules.2.2.1 _
      { name := "vh", domains := ["*"]
        routes :=
          [{ name := none
             rMatch := { path := .Prefix "/api", headers := [], queryParameters := [] }
             action := .Forward "c" none none (some "/users/x")
             typedPerFilterConfig := [] }]
        typedPerFilterConfig := [] }
      { name := none
        rMatch := { path := .Prefix "/api", headers := [], queryParameters := [] }
        action := .Forward "c" none none (some "/users/x")
        typedPerFilterConfig := [] }
      (by simp) (by simp) (by rfl) (by rfl)
  · exact validate_route_payload_template_rules.2.2.2 "/api/v1/users/x" "c" "/users/x"
      none [] [] [] (by rfl) (by rfl) (by rfl) (by rfl) (by rfl)

theorem listMapInv {α β : Type} (f : α → β) (g : β → α) (h : ∀ a, g (f a) = a) :
    ∀ xs : List α, (xs.map f).map g = xs := by
  intro xs
  induction xs with
  | nil => rfl
  | cons x xs ih => simp [h, ih]

theorem mapME_inv {α β : Type} (f : α → Except ApiError β) (g : β → α)
    (h : ∀ a b, f a = .ok b → g b = a) :
    ∀ xs ys, mapME f xs = .ok ys → ys.map g = xs := by
  intro xs
  induction xs with
  | nil =>
    intro ys hy
    unfold mapME at hy
    cases hy
    rfl
  | cons x xs ih =>
    intro ys hy
    unfold mapME at hy
    cases hf : f x with
    | error e => rw [hf] at hy; cases hy
    | ok y =>
      rw [hf] at hy
      cases hrest : mapME f xs with
      | error e => rw [hrest] at hy; cases hy
      | ok ys2 =>
        rw [hrest] at hy
        cases hy
        simp [h x y hf, ih ys2 hrest]

theorem pathMatch_roundtrip (p : PathMatchDefinition) :
    PathMatchDefinition.from_xds_config p.to_xds_config = p := by
  cases p <;> rfl

theorem headerMatch_roundtrip (h : HeaderMatchDefinition) :
    HeaderMatchDefinition.from_xds_config h.to_xds_config = h := rfl

theorem queryMatch_roundtrip (q : QueryParameterMatchDefinition) :
    QueryParameterMatchDefinition.from_xds_config q.to_xds_config = q := rfl

theorem routeMatch_roundtrip (m : RouteMatchDefinition) (xm : XdsRouteMatchConfig)
    (h : m.to_xds_config = .ok xm) : RouteMatchDefinition.from_xds_config xm = m := by
  obtain ⟨path, hs, qs⟩ := m
  unfold RouteMatchDefinition.to_xds_config at h
  cases h
  unfold RouteMatchDefinition.from_xds_config
  simp only [RouteMatchDefinition.mk.injEq]
  refine ⟨pathMatch_roundtrip path, ?_, ?_⟩
  · cases hhs : hs.isEmpty with
    | true => simp [List.isEmpty_iff.mp hhs]
    | false =>
      simp only [Bool.false_eq_true, if_false, Option.getD_some]
      exact listMapInv _ _ headerMatch_roundtrip hs
  · cases hqs : qs.isEmpty with
    | true => simp [List.isEmpty_iff.mp hqs]
    | false =>
      simp only [Bool.false_eq_true, if_false, Option.getD_some]
      exact listMapInv _ _ queryMatch_roundtrip qs

theorem routeAction_roundtrip (a : RouteActionDefinition) (xa : XdsRouteActionConfig)
    (h : a.to_xds_config = .ok xa) : RouteActionDefinition.from_xds_config xa = a := by
  cases a with
  | Forward c t pr tr =>
    unfold RouteActionDefinition.to_xds_config at h
    cases h
    rfl
  | Weighted cs tw =>
    simp only [RouteActionDefinition.to_xds_config] at h
    cases hcs : cs.isEmpty with
    | true => rw [hcs] at h; simp at h
    | false =>
      rw [hcs] at h
      simp only [Bool.false_eq_true, if_false] at h
      cases h
      unfold RouteActionDefinition.from_xds_config
      simp only [XdsRouteActionConfig.casesOn]
      simp [listMapInv
        (fun (c : WeightedClusterDefinition) =>
          ({ name := c.name, weight := c.weight,
             typedPerFilterConfig := c.typedPerFilterConfig } : XdsWeightedClusterConfig))
        (fun (c : XdsWeightedClusterConfig) =>
          ({ name := c.name, weight := c.weight,
             typedPerFilterConfig := c.typedPerFilterConfig } : WeightedClusterDefinition))
        (fun _ => rfl) cs]
  | Redirect hr pr rc =>
    unfold RouteActionDefinition.to_xds_config at h
    cases h
    rfl

theorem routeRule_roundtrip (r : RouteRuleDefinition) (xr : XdsRouteRule)
    (h : r.to_xds_config = .ok xr) : RouteRuleDefinition.from_xds_config xr = r := by
  obtain ⟨n, m, a, cfg⟩ := r
  unfold RouteRuleDefinition.to_xds_config at h
  cases hm : RouteMatchDefinition.to_xds_config m with
  | error e => rw [hm] at h; cases h
  | ok xm =>
    rw [hm] at h
    cases ha : RouteActionDefinition.to_xds_config a with
    | error e => rw [ha] at h; cases h
    | ok xa =>
      rw [ha] at h
      cases h
      simp [RouteRuleDefinition.from_xds_config, routeMatch_roundtrip m xm hm,
        routeAction_roundtrip a xa ha]

theorem virtualHost_roundtrip (vh : VirtualHostDefinition) (xvh : XdsVirtualHostConfig)
    (h : vh.to_xds_config = .ok xvh) : VirtualHostDefinition.from_xds_config xvh = vh := by
  obtain ⟨n, ds, rs, cfg⟩ := vh
  unfold VirtualHostDefinition.to_xds_config at h
  cases hrs : mapME RouteRuleDefinition.to_xds_config rs with
  | error e => rw [hrs] at h; cases h
  | ok xrs =>
    rw [hrs] at h
    cases h
    simp [VirtualHostDefinition.from_xds_config,
      mapME_inv _ _ routeRule_roundtrip rs xrs hrs]

/-- Claim C4: for every route configuration accepted by the wire conversion,
converting to the xDS wire form and back is the identity. -/
theorem route_definition_xds_roundtrip (d : RouteDefinition) (w : XdsRouteConfig)
    (h : d.to_xds_config = .ok w) : RouteDefinition.from_xds_config w = d := by
  obtain ⟨n, vhs⟩ := d
  unfold RouteDefinition.to_xds_config at h
  cases hvhs : mapME VirtualHostDefinition.to_xds_config vhs with
  | error e => rw [hvhs] at h; cases h
  | ok xvhs =>
    rw [hvhs] at h
    cases h
    simp [RouteDefinition.from_xds_config,
      mapME_inv _ _ virtualHost_roundtrip vhs xvhs hvhs]

/-- Witness for C4: the round trip at a configuration exercising the Exact,
Prefix, Regex and Template path matches, the Forward, Weighted and Redirect
actions, and both empty and non-empty header and query-parameter lists. -/
theorem route_definition_xds_roundtrip_witness :
    RouteDefinition.from_xds_config roundtripSampleWire = roundtripSample :=
  route_definition_xds_roundtrip roundtripSample roundtripSampleWire (by rfl)

/-- Claim C5: summarize_route renders the first route's path match (raw value
for Exact and Prefix, a regex: form for Regex, a template: form for
Template) as the path summary and the first route's target (the cluster for
Forward, the first weighted cluster's name for Weighted, the literal
__redirect__ for Redirect) as the cluster summary, falling back to "*" and
"unknown" when there are no routes. -/
theorem summarize_route_spec (d : RouteDefinition) :
    (flatRoutes d = [] → summarize_route d = ("*", "unknown")) ∧
    (∀ r rest, flatRoutes d = r :: rest →
      (summarize_route d).1 = claimPathRender r.rMatch.path ∧
      (∀ c ts pr tr, r.action = .Forward c ts pr tr → (summarize_route d).2 = c) ∧
      (∀ cs tw c cs2, r.action = .Weighted cs tw → cs = c :: cs2 →
        (summarize_route d).2 = c.name) ∧
      (∀ hr pr rc, r.action = .Redirect hr pr rc →
        (summarize_route d).2 = "__redirect__")) := by
  constructor
  · intro h
    simp only [summarize_route]
    rw [h]
    rfl
  · intro r rest h
    refine ⟨?_, ?_, ?_, ?_⟩
    · simp only [summarize_route]
      rw [h]
      simp only [List.map_cons, List.head?_cons, Option.getD_some]
      cases hp : r.rMatch.path <;> simp [claimPathRender]
    · intro c ts pr tr ha
      simp only [summarize_route]
      rw [h]
      simp [ha]
    · intro cs tw c cs2 ha hcs
      simp only [summarize_route]
      rw [h]
      simp [ha, hcs]
    · intro hr pr rc ha
      simp only [summarize_route]
      rw [h]
      simp [ha]

/-- Witness for C5 at the sample payload: the summaries are the first rule's
prefix value and forward cluster. -/
theorem summarize_route_spec_witness :
    (summarize_route samplePayload).1 = claimPathRender (PathMatchDefinition.Prefix "/api") ∧
    (summarize_route samplePayload).2 = "api-cluster" := by
  have h := (summarize_route_spec samplePayload).2
    { name := some "api"
      rMatch := { path := .Prefix "/api", headers := [], queryParameters := [] }
      action := .Forward "api-cluster" (some 5) none none
      typedPerFilterConfig := [] } [] (by rfl)
  exact ⟨h.1, h.2.1 "api-cluster" (some 5) none none rfl⟩

/-- Claim C1 (amended): every 2xx from the route-config write handlers
(create, update, delete) is produced only when the xDS refresh succeeded,
and the successful refresh is the last effect before the response; a refresh
failure yields an error result instead.  (The OpenAPI import surface is the
counterexample to the claim as stated: it answers 201 with no refresh.) -/
theorem write_handlers_refresh_before_2xx :
    (∀ env payload st resp tr,
       create_route_handler env payload = (.ok (st, resp), tr) →
       env.refreshResult = .ok () ∧ tr.getLast? = some Effect.refreshSucceeded) ∧
    (∀ env name payload st resp tr,
       update_route_handler env name payload = (.ok (st, resp), tr) →
       env.refreshResult = .ok () ∧ tr.getLast? = some Effect.refreshSucceeded) ∧
    (∀ env name st tr,
       delete_route_handler env name = (.ok st, tr) →
       env.refreshResult = .ok () ∧ tr.getLast? = some Effect.refreshSucceeded) := by
  refine ⟨?_, ?_, ?_⟩
  · intro env payload st resp tr h
    unfold create_route_handler at h
    split at h
    · simp at h
    · split at h
      · simp at h
      · split at h
        · simp at h
        · split at h
          · simp at h
          · split at h
            · simp at h
            · split at h
              · simp at h
              · next u2 heq =>
                simp only [Prod.mk.injEq, Except.ok.injEq] at h
                obtain ⟨-, htr⟩ := h
                exact ⟨heq, by rw [← htr]; rfl⟩
  · intro env name payload st resp tr h
    unfold update_route_handler at h
    split at h
    · simp at h
    · split at h
      · simp at h
      · split at h
        · simp at h
        · split at h
          · simp at h
          · split at h
            · simp at h
            · split at h
              · simp at h
              · split at h
                · simp at h
                · split at h
                  · simp at h
                  · next u2 heq =>
                    simp only [Prod.mk.injEq, Except.ok.injEq] at h
                    obtain ⟨-, htr⟩ := h
                    exact ⟨heq, by rw [← htr]; rfl⟩
  · intro env name st tr h
    unfold delete_route_handler at h
    split at h
    · simp at h
    · split at h
      · simp at h
      · split at h
        · simp at h
        · split at h
          · simp at h
          · split at h
            · simp at h
            · next u2 heq =>
              simp only [Prod.mk.injEq, Except.ok.injEq] at h
              obtain ⟨-, htr⟩ := h
              exact ⟨heq, by rw [← htr]; rfl⟩

/-- Witness for C1 at a concrete successful create: the trace ends with the
successful refresh. -/
theorem write_handlers_refresh_before_2xx_witness :
    sampleEnv.refreshResult = .ok () ∧
    (create_route_handler sampleEnv samplePayload).2.getLast? =
      some Effect.refreshSucceeded :=
  write_handlers_refresh_before_2xx.1 sampleEnv samplePayload 201
    { name := "primary-routes", pathPrefix := "/api", clusterTargets := "api-cluster",
      config := samplePayload }
    (create_route_handler sampleEnv samplePayload).2 (by rfl)

/-- Counterexample for C1 as stated: the OpenAPI import handler is a write
surface that answers 201, yet its effect trace is empty, so no xDS refresh
precedes the 2xx response. -/
theorem import_openapi_2xx_without_refresh :
    okStatus (import_openapi_handler { name := "legacy", version := none, basePath := none }
      (.ok minimalOpenApiSpec) "api-id-1" "t0").1 = some 201 ∧
    (import_openapi_handler { name := "legacy", version := none, basePath := none }
      (.ok minimalOpenApiSpec) "api-id-1" "t0").2 = [] :=
  ⟨rfl, rfl⟩

/-- Claim C6: deleting the designated default gateway route configuration
answers 409 Conflict with an empty effect trace: the repository is never
consulted and no refresh runs, whatever the environment holds. -/
theorem delete_default_gateway_conflict (env : HandlerEnv) (name : String)
    (h : is_default_gateway_route name = true) :
    delete_route_handler env name =
      (.error (.conflict "The default gateway route configuration cannot be deleted"), []) := by
  unfold delete_route_handler
  rw [if_pos h]

/-- Witness for C6: the guard fires on the designated name even in an
environment whose lookups would fail (the resource need not exist). -/
theorem delete_default_gateway_conflict_witness :
    delete_route_handler
      { repoAvailable := true
        envoyEncodeOk := fun _ => true
        createResult := .error (.notFound "no")
        getByName := fun _ => .error (.notFound "no")
        updateResult := .error (.notFound "no")
        deleteResult := .error (.notFound "no")
        refreshResult := .error (.serviceUnavailable "down") }
      defaultGatewayRouteName =
      (.error (.conflict "The default gateway route configuration cannot be deleted"), []) :=
  delete_default_gateway_conflict _ defaultGatewayRouteName (by rfl)

/-- Claim C2: the Platform API definition create handler answers 201 with an
ApiDefinitionResponse and performs no repository effect, and the GET, PUT
and DELETE Platform handlers answer NotFound for every id (PUT after its
payload validation). -/
theorem platform_api_definition_handlers_spec :
    (∀ api apiId nowTs, apiDefinitionValidate api = .ok () →
       create_api_definition_handler api apiId nowTs =
         (.ok (201,
            { id := apiId, name := api.name, version := api.version,
              basePath := api.basePath, upstream := api.upstream, routes := api.routes,
              policies := api.policies, routeConfigId := apiId ++ "-routes",
              listenerId := apiId ++ "-listener", clusterId := apiId ++ "-cluster",
              metadata := api.metadata, createdAt := nowTs, updatedAt := nowTs }), [])) ∧
    (∀ id, get_api_definition_by_id_handler id =
       (.error (.notFound ("API definition with ID " ++ id ++ " not found")), [])) ∧
    (∀ id api, apiDefinitionValidate api = .ok () →
       update_api_definition_handler id api =
         (.error (.notFound ("API definition with ID " ++ id ++ " not found")), [])) ∧
    (∀ id, delete_api_definition_handler id =
       (.error (.notFound ("API definition with ID " ++ id ++ " not found")), [])) := by
  refine ⟨?_, ?_, ?_, ?_⟩
  · intro api apiId nowTs h
    unfold create_api_definition_handler
    rw [h]
  · intro id
    rfl
  · intro id api h
    unfold update_api_definition_handler
    rw [h]
  · intro id
    rfl

/-- Witness for C2 at the sample API definition and a fixed id. -/
theorem platform_api_definition_handlers_spec_witness :
    create_api_definition_handler sampleApiDefinition "id-1" "t0" =
      (.ok (201,
         { id := "id-1", name := sampleApiDefinition.name,
           version := sampleApiDefinition.version,
           basePath := sampleApiDefinition.basePath,
           upstream := sampleApiDefinition.upstream, routes := sampleApiDefinition.routes,
           policies := sampleApiDefinition.policies, routeConfigId := "id-1" ++ "-routes",
           listenerId := "id-1" ++ "-listener", clusterId := "id-1" ++ "-cluster",
           metadata := sampleApiDefinition.metadata, createdAt := "t0",
           updatedAt := "t0" }), []) ∧
    update_api_definition_handler "id-1" sampleApiDefinition =
      (.error (.notFound ("API definition with ID " ++ "id-1" ++ " not found")), []) :=
  ⟨platform_api_definition_handlers_spec.1 sampleApiDefinition "id-1" "t0" (by rfl),
   platform_api_definition_handlers_spec.2.2.1 "id-1" sampleApiDefinition (by rfl)⟩

theorem emittedRateLimit_eq (op : Json) :
    emittedRateLimit (extract_flowplane_policies op) = (extractRateLimit op).1.isSome := by
  cases hrl : (extractRateLimit op).1 with
  | some p => simp [extract_flowplane_policies, emittedRateLimit, hrl]
  | none =>
    cases ha : extractJwtAuth op with
    | some a => simp [extract_flowplane_policies, emittedRateLimit, hrl, ha]
    | none =>
      cases hc : extractCors op with
      | some c => simp [extract_flowplane_policies, emittedRateLimit, hrl, ha, hc]
      | none => simp [extract_flowplane_policies, emittedRateLimit, hrl, ha, hc]

/-- Claim C7 (amended): the rate-limit extraction emits a policy exactly when
the x-flowplane-ratelimit tag carries an integer requests and a string
interval; a tag whose requests field is not an integer yields the warning
"Invalid x-flowplane-ratelimit format" and no policy; but a tag with an
integer requests and a non-string interval emits no policy and produces no
warning.  (The claim as stated says every malformed tag warns; the last case
is the counterexample.) -/
theorem extract_ratelimit_spec (operation : Json) :
    (emittedRateLimit (extract_flowplane_policies operation) = rlWellFormed operation) ∧
    (∀ rl, operation.get "x-flowplane-ratelimit" = some rl →
       ((rl.get "requests").bind Json.asU64) = none →
       "Invalid x-flowplane-ratelimit format" ∈ (extract_flowplane_policies operation).2) ∧
    (∀ rl, operation.get "x-flowplane-ratelimit" = some rl →
       ∀ n, ((rl.get "requests").bind Json.asU64) = some n →
       ((rl.get "interval").bind Json.asStr) = none →
       emittedRateLimit (extract_flowplane_policies operation) = false ∧
       (extractRateLimit operation).2 = []) := by
  refine ⟨?_, ?_, ?_⟩
  · rw [emittedRateLimit_eq]
    cases hg : operation.get "x-flowplane-ratelimit" with
    | none => simp [extractRateLimit, rlWellFormed, hg]
    | some rl =>
      cases hr : (rl.get "requests").bind Json.asU64 with
      | none => simp [extractRateLimit, rlWellFormed, hg, hr]
      | some n =>
        cases hi : (rl.get "interval").bind Json.asStr with
        | none => simp [extractRateLimit, rlWellFormed, hg, hr, hi]
        | some s => simp [extractRateLimit, rlWellFormed, hg, hr, hi]
  · intro rl hg hr
    have hx : extractRateLimit operation = (none, ["Invalid x-flowplane-ratelimit format"]) := by
      simp [extractRateLimit, hg, hr]
    simp [extract_flowplane_policies, hx]
  · intro rl hg n hr hi
    have hx : extractRateLimit operation = (none, []) := by
      simp [extractRateLimit, hg, hr, hi]
    rw [emittedRateLimit_eq]
    simp [hx]

/-- Counterexample for C7 as stated: a tag with integral requests but no
interval is malformed, yet the extraction emits neither a policy nor a
warning. -/
theorem ratelimit_malformed_without_warning :
    extract_flowplane_policies ratelimitNoIntervalOp = (none, []) := rfl

/-- Witness for C7 at a tag whose requests field is a string: the invalid
format warning is emitted. -/
theorem extract_ratelimit_spec_witness :
    "Invalid x-flowplane-ratelimit format" ∈
      (extract_flowplane_policies ratelimitBadRequestsOp).2 :=
  (extract_ratelimit_spec ratelimitBadRequestsOp).2.1
    (Json.obj [("requests", Json.str "many")]) (by rfl) (by rfl)

theorem unknownTagWarnings_mem (entries : List (String × Json)) (key : String) (v : Json)
    (hm : (key, v) ∈ entries) (hpre : strStartsWith key "x-flowplane-" = true)
    (hunk : knownFlowplaneTags.contains key = false) :
    ("Unknown flowplane tag: " ++ key) ∈ unknownTagWarnings entries := by
  induction entries with
  | nil => cases hm
  | cons a as ih =>
    obtain ⟨k, j⟩ := a
    unfold unknownTagWarnings
    rcases List.mem_cons.mp hm with heq | hmem
    · injection heq with h1 h2
      subst h1
      rw [if_pos (by rw [hpre, hunk]; rfl)]
      exact List.mem_cons_self _ _
    · by_cases hcnd : (strStartsWith k "x-flowplane-" && !(knownFlowplaneTags.contains k)) = true
      · rw [if_pos hcnd]
        exact List.mem_cons_of_mem _ (ih hmem)
      · rw [if_neg hcnd]
        exact ih hmem

/-- Claim C8: every x-flowplane-prefixed key of an operation that is not a
known tag produces the warning "Unknown flowplane tag: key" in the
extraction's warning list, and the importer's conversion never returns an
error (its result is always ok). -/
theorem unknown_flowplane_tag_warning (operation : Json) (entries : List (String × Json))
    (key : String) (v : Json) (hobj : operation = Json.obj entries)
    (hm : (key, v) ∈ entries) (hpre : strStartsWith key "x-flowplane-" = true)
    (hunk : knownFlowplaneTags.contains key = false) :
    ("Unknown flowplane tag: " ++ key) ∈ (extract_flowplane_policies operation).2 ∧
    (∀ name vo bo, ∃ result, openapi_to_api_definition operation name vo bo = .ok result) := by
  subst hobj
  refine ⟨?_, fun name vo bo => ⟨_, rfl⟩⟩
  simp only [extract_flowplane_policies, Json.asObject, Option.getD_some]
  exact List.mem_append_right _ (unknownTagWarnings_mem entries key v hm hpre hunk)

/-- Witness for C8 at a concrete unknown tag. -/
theorem unknown_flowplane_tag_warning_witness :
    ("Unknown flowplane tag: " ++ "x-flowplane-invalid-filter") ∈
      (extract_flowplane_policies ratelimitBadRequestsOp).2 :=
  (unknown_flowplane_tag_warning ratelimitBadRequestsOp
    [("x-flowplane-ratelimit", Json.obj [("requests", Json.str "many")]),
     ("x-flowplane-invalid-filter", Json.obj [])]
    "x-flowplane-invalid-filter" (Json.obj []) rfl
    (List.mem_cons_of_mem _ (List.mem_cons_self _ _)) (by rfl) (by rfl)).1

/-- Claim C9 (amended): the Platform service projection used by the list and
get handlers keeps an HTTP health check's thresholds and defaults absent
ones to 2 and 2, while the transformer module's cluster-to-service
projection sets both thresholds to 3 for every first health check,
discarding any carried values.  (The claim as stated says the projection
defaults to 2/2; the transformer's 3/3 is the counterexample.) -/
theorem cluster_service_health_thresholds (cluster : ClusterResponse) (spec : ClusterSpec) :
    (∀ p hst mth ivs ts ut ht es rest,
       cluster.config.healthChecks = (.Http p hst mth ivs ts ut ht es) :: rest →
       (cluster_response_to_service cluster).healthCheck =
         some { path := p, interval := ivs.getD 10, timeout := ts.getD 3,
                healthyThreshold := ht.getD 2, unhealthyThreshold := ut.getD 2 }) ∧
    (∀ hc rest, spec.healthChecks = hc :: rest →
       ((cluster_to_service spec).healthCheck.map fun h =>
         (h.healthyThreshold, h.unhealthyThreshold)) = some (3, 3)) := by
  constructor
  · intro p hst mth ivs ts ut ht es rest hh
    simp only [cluster_response_to_service]
    rw [hh]
    simp
  · intro hc rest hh
    simp only [cluster_to_service]
    rw [hh]
    cases hc <;> simp

/-- Counterexample for C9 as stated: at a cluster whose single HTTP health
check carries no thresholds, the transformer's projection yields thresholds
3/3, not the claimed default 2/2. -/
theorem cluster_to_service_thresholds_counterexample :
    ((cluster_to_service sampleClusterSpec).healthCheck.map fun h =>
      (h.healthyThreshold, h.unhealthyThreshold)) = some (3, 3) ∧
    some ((3 : Nat), (3 : Nat)) ≠ some ((2 : Nat), (2 : Nat)) :=
  ⟨rfl, by decide⟩

/-- Witness for C9 at the sample cluster: the handler projection defaults to
2/2 and the transformer projection yields 3/3. -/
theorem cluster_service_health_thresholds_witness :
    (cluster_response_to_service sampleClusterResponse).healthCheck =
      some { path := "/health", interval := 10, timeout := 3,
             healthyThreshold := 2, unhealthyThreshold := 2 } ∧
    ((cluster_to_service sampleClusterSpec).healthCheck.map fun h =>
      (h.healthyThreshold, h.unhealthyThreshold)) = some (3, 3) :=
  ⟨(cluster_service_health_thresholds sampleClusterResponse sampleClusterSpec).1
     "/health" none none none none none none none [] (by rfl),
   (cluster_service_health_thresholds sampleClusterResponse sampleClusterSpec).2
     (.Http "/health" none none none none none none none) [] (by rfl)⟩

/-- Claim C10: the transformer's cluster-to-service projection returns the
constant name "cluster" and a cluster id hashed from the lb policy alone
(or "unknown" when absent), so its identity fields do not depend on the
cluster's endpoints or on any actual cluster name. -/
theorem cluster_to_service_identity (spec : ClusterSpec) :
    (cluster_to_service spec).name = "cluster" ∧
    (cluster_to_service spec).clusterId =
      generate_id_from_name (spec.lbPolicy.getD "unknown") ++ "-cluster" ∧
    (∀ spec2 : ClusterSpec, spec2.lbPolicy = spec.lbPolicy →
       (cluster_to_service spec2).name = (cluster_to_service spec).name ∧
       (cluster_to_service spec2).clusterId = (cluster_to_service spec).clusterId) := by
  refine ⟨rfl, rfl, ?_⟩
  intro spec2 h
  refine ⟨rfl, ?_⟩
  simp only [cluster_to_service]
  rw [h]

/-- Witness for C10: two clusters differing in endpoints, timeouts and TLS
but sharing an lb policy project to the same service identity. -/
theorem cluster_to_service_identity_witness :
    (cluster_to_service sampleClusterSpecOther).name =
      (cluster_to_service sampleClusterSpec).name ∧
    (cluster_to_service sampleClusterSpecOther).clusterId =
      (cluster_to_service sampleClusterSpec).clusterId :=
  (cluster_to_service_identity sampleClusterSpec).2.2 sampleClusterSpecOther (by rfl)
